import Mathlib

/-!
Verification development for the invoice-processor repository.

The definitions below are a shallow embedding of the Go source:
pure Go functions become Lean functions, stateful code becomes explicit
state passing, machine integers become Nat/Int, fallible code returns
Except/Option.  Times are modelled as Int ticks, Go errors as the
inductive GoErr, byte buffers as String (all sniffed markers are ASCII).
External effects (XML canonicalization, OCSP network traffic, the pdfsig
subprocess) are modelled by explicit outcome parameters threaded through
the same branch structure as the source.
-/

namespace InvoiceProcessor

/-- Go `error` values produced by the signature subsystem: either a plain
`fmt.Errorf` message or a `signature.SignatureError` with code, field and
message (from the error constructors in the signature package). -/
inductive GoErr where
  | msg (s : String)
  | sigErr (code field message : String)
  | parseErr (provider field message : String)
deriving DecidableEq, Repr

/-- `signature.ErrNoSignature()`. -/
def errNoSignature : GoErr := .sigErr "NO_SIGNATURE" "" "no signature found in document"

/-- `signature.ErrToolUnavailable(tool)`. -/
def errToolUnavailable (tool : String) : GoErr :=
  .sigErr "TOOL_UNAVAILABLE" "" ("external tool not available: " ++ tool)

/-- Whether a Go error is the `CHAIN_INVALID`-coded `SignatureError`
(`signature.ErrChainInvalid` / `ErrCodeChainInvalid`). -/
def GoErr.isChainInvalidCode : GoErr → Bool
  | .sigErr code _ _ => code = "CHAIN_INVALID"
  | _ => false

/-- Model of `math/big.Int.String()`: the decimal representation
(with a leading minus sign for negative numbers). -/
def bigIntString (n : Int) : String := toString n

/-- An `x509.Certificate`, restricted to the fields the signature
subsystem reads: subject/issuer names, serial number, validity window
(`Int` ticks), and the OCSP responder URL list. -/
structure Cert where
  subjectCommonName : String
  subjectOrganization : List String
  issuerCommonName : String
  issuerOrganization : List String
  issuerDN : String
  subjectDN : String
  serialNumber : Int
  notBefore : Int
  notAfter : Int
  ocspServer : List String
deriving DecidableEq, Repr

/-- `signature.SignerInfo` (result.go). -/
structure SignerInfo where
  name : String
  organization : String
  serialNumber : String
  issuer : String
  validFrom : Int
  validTo : Int
deriving DecidableEq, Repr

/-- `signature.VerificationResult` (result.go).  `signedAt` is an optional
tick; `certChain` is the in-memory chain. -/
structure VerificationResult where
  valid : Bool
  signatureFound : Bool
  signatureValid : Bool
  certChainValid : Bool
  notRevoked : Bool
  timestampValid : Bool
  signer : Option SignerInfo
  signedAt : Option Int
  certChain : List Cert
  warnings : List String
  errors : List String
  format : String
deriving DecidableEq, Repr

/-- `signature.NewVerificationResult()`: empty result, all checks false. -/
def newVerificationResult : VerificationResult :=
  { valid := false, signatureFound := false, signatureValid := false
    certChainValid := false, notRevoked := false, timestampValid := false
    signer := none, signedAt := none, certChain := []
    warnings := [], errors := [], format := "" }

/-- `VerificationResult.AddWarning`. -/
def addWarning (r : VerificationResult) (m : String) : VerificationResult :=
  { r with warnings := r.warnings ++ [m] }

/-- `VerificationResult.AddError`: appends the message and forces
`Valid = false`. -/
def addError (r : VerificationResult) (m : String) : VerificationResult :=
  { r with errors := r.errors ++ [m], valid := false }

/-- `VerificationResult.SetSigner`: populates `SignerInfo` from an x509
certificate; a nil certificate is a no-op. -/
def setSigner (r : VerificationResult) (cert : Option Cert) : VerificationResult :=
  match cert with
  | none => r
  | some c =>
    let signer : SignerInfo :=
      { name := if c.subjectCommonName.length > 0 then c.subjectCommonName else ""
        organization := match c.subjectOrganization with
          | o :: _ => o
          | [] => ""
        serialNumber := bigIntString c.serialNumber
        issuer :=
          if c.issuerCommonName.length > 0 then c.issuerCommonName
          else match c.issuerOrganization with
            | o :: _ => o
            | [] => ""
        validFrom := c.notBefore
        validTo := c.notAfter }
    { r with signer := some signer }

/-- `VerificationResult.ComputeValidity`: `Valid` is the conjunction of the
four individual checks and emptiness of the error list. -/
def computeValidity (r : VerificationResult) : VerificationResult :=
  { r with valid := r.signatureFound && r.signatureValid &&
                    r.certChainValid && r.notRevoked && r.errors.isEmpty }

/-! ## OCSP cache (internal/signature/trust/ocsp.go) -/

/-- `ocspCacheEntry`: cached OCSP outcome with its expiry tick. -/
structure OcspCacheEntry where
  notRevoked : Bool
  expiresAt : Int
deriving DecidableEq, Repr

/-- `OCSPCache`: association list from cache key to entry plus the TTL.
The Go map is modelled as a key-unique association list; `Set` overwrites
by removing any existing binding first. -/
structure OCSPCache where
  entries : List (String × OcspCacheEntry)
  ttl : Int
deriving DecidableEq, Repr

/-- `NewOCSPCache(ttl)`. -/
def newOCSPCache (ttl : Int) : OCSPCache := { entries := [], ttl := ttl }

/-- `certCacheKey`: `fmt.Sprintf("%s:%s", cert.Issuer.String(), cert.SerialNumber.String())`. -/
def certCacheKey (cert : Cert) : String :=
  cert.issuerDN ++ ":" ++ bigIntString cert.serialNumber

/-- Map lookup on the association list (`c.entries[key]`). -/
def entriesLookup (l : List (String × OcspCacheEntry)) (key : String) :
    Option OcspCacheEntry :=
  match l with
  | [] => none
  | (k, e) :: rest => if k = key then some e else entriesLookup rest key

/-- Map deletion (`delete(c.entries, key)`). -/
def entriesErase (l : List (String × OcspCacheEntry)) (key : String) :
    List (String × OcspCacheEntry) :=
  match l with
  | [] => []
  | (k, e) :: rest => if k = key then entriesErase rest key
                      else (k, e) :: entriesErase rest key

/-- `OCSPCache.Get` at wall time `now`: returns `(notRevoked, found)` and the
cache after the call.  A nil certificate returns a miss; an entry whose
expiry has passed (`time.Now().After(entry.expiresAt)`, i.e. `now > expiresAt`)
is deleted and reported as a miss. -/
def ocspCacheGet (c : OCSPCache) (cert : Option Cert) (now : Int) :
    (Bool × Bool) × OCSPCache :=
  match cert with
  | none => ((false, false), c)
  | some cert =>
    let key := certCacheKey cert
    match entriesLookup c.entries key with
    | none => ((false, false), c)
    | some entry =>
      if now > entry.expiresAt then
        ((false, false), { c with entries := entriesErase c.entries key })
      else
        ((entry.notRevoked, true), c)

/-- `OCSPCache.Set` at wall time `now`: stores the outcome with expiry
`now + ttl`; a nil certificate is a no-op. -/
def ocspCacheSet (c : OCSPCache) (cert : Option Cert) (nr : Bool) (now : Int) :
    OCSPCache :=
  match cert with
  | none => c
  | some cert =>
    let key := certCacheKey cert
    { c with entries := (key, ⟨nr, now + c.ttl⟩) :: entriesErase c.entries key }

/-! ## Trust store (TrustStore, from the trust package) -/

/-- `TrustStore`: root pool, the parallel `rootCerts` slice kept for
libraries needing a slice, the OCSP cache and configuration. -/
structure TrustStore where
  roots : List Cert
  rootCerts : List Cert
  ocspCache : OCSPCache
  ocspTimeout : Int
  softFail : Bool
deriving DecidableEq, Repr

/-- `NewEmptyTrustStore()` before options are applied. -/
def newEmptyTrustStore (ttl timeout : Int) : TrustStore :=
  { roots := [], rootCerts := [], ocspCache := newOCSPCache ttl
    ocspTimeout := timeout, softFail := false }

/-- `TrustStore.RootCerts()`: the slice handed to libraries (the XML
verifier passes it to the XMLDSig validation context as trusted roots). -/
def rootCertsOf (s : TrustStore) : List Cert := s.rootCerts

/-- `TrustStore.IsSoftFail()`. -/
def isSoftFail (s : TrustStore) : Bool := s.softFail

/-- `TrustStore.AddCertificate`: a non-nil certificate is added to both the
pool and the `rootCerts` slice. -/
def addCertificate (s : TrustStore) (cert : Option Cert) : TrustStore :=
  match cert with
  | none => s
  | some c => { s with roots := s.roots ++ [c], rootCerts := s.rootCerts ++ [c] }

/-- One PEM block as produced by repeated `pem.Decode`, together with the
outcome of `x509.ParseCertificate` on its bytes. -/
structure PemBlock where
  blockType : String
  parsed : Except String Cert
deriving Repr

/-- Loop body of `TrustStore.AddCertificatesFromPEM`: walks the PEM blocks,
adding every successfully parsed CERTIFICATE block to the pool only
(`s.roots.AddCert(cert)`); a parse failure aborts with an error (keeping
certificates added so far), and zero added certificates is an error. -/
def addCertificatesFromPEMLoop (s : TrustStore) (added : Nat) :
    List PemBlock → Except GoErr Unit × TrustStore
  | [] =>
    if added = 0 then (.error (.msg "no certificates found in PEM data"), s)
    else (.ok (), s)
  | b :: rest =>
    if b.blockType = "CERTIFICATE" then
      match b.parsed with
      | .error e => (.error (.msg ("failed to parse certificate: " ++ e)), s)
      | .ok c =>
        addCertificatesFromPEMLoop { s with roots := s.roots ++ [c] } (added + 1) rest
    else
      addCertificatesFromPEMLoop s added rest

/-- `TrustStore.AddCertificatesFromPEM(pemData)`, with the PEM buffer
already split into its decoded blocks. -/
def addCertificatesFromPEM (s : TrustStore) (blocks : List PemBlock) :
    Except GoErr Unit × TrustStore :=
  addCertificatesFromPEMLoop s 0 blocks

/-! ## Chain verification (TrustStore.VerifyChain)

`VerifyChain` delegates chain building to Go's `x509.Certificate.Verify`.
That library call is modelled by an explicit chain search parameterised by
a `signedBy` relation (`signedBy c i` abstracts "`i`'s key verifies `c`'s
signature and the x509 constraints hold").  Per the library's contract,
every chain runs from the leaf certificate to a certificate of the root
pool. -/

/-- All candidate chains from `c` to a pool root, also through
intermediates; `fuel` bounds the recursion through the intermediate set
(the Go library never revisits certificates, so `inters.length + 1`
suffices). -/
def findChains (signedBy : Cert → Cert → Bool) (roots inters : List Cert) :
    Nat → Cert → List (List Cert)
  | 0, c => if c ∈ roots then [[c]] else []
  | fuel + 1, c =>
    (if c ∈ roots then [[c]] else []) ++
    ((roots.filter (fun r => signedBy c r && !(r = c : Bool))).map
      (fun r => [c, r])) ++
    ((inters.filter (fun i => signedBy c i && !(i = c : Bool))).map
      (fun i => (findChains signedBy roots inters fuel i).map
        (fun chain => c :: chain))).flatten

/-- Model of `cert.Verify(opts)` with `opts.Roots` the pool and
`opts.Intermediates` the bridging pool: the candidate chains, or the
library's unknown-authority error when none exists. -/
def x509Verify (signedBy : Cert → Cert → Bool) (roots inters : List Cert)
    (c : Cert) : Except String (List (List Cert)) :=
  match findChains signedBy roots inters (inters.length + 1) c with
  | [] => .error "x509: certificate signed by unknown authority"
  | cs => .ok cs

/-- `TrustStore.VerifyChain(cert, intermediates)`: nil check, delegate to
the x509 library against the store's pool, then return the first chain.
Library failure is wrapped as a plain `fmt.Errorf` message. -/
def verifyChain (signedBy : Cert → Cert → Bool) (s : TrustStore)
    (cert : Option Cert) (intermediates : List Cert) :
    Except GoErr (List Cert) :=
  match cert with
  | none => .error (.msg "certificate is nil")
  | some c =>
    match x509Verify signedBy s.roots intermediates c with
    | .error e => .error (.msg ("chain verification failed: " ++ e))
    | .ok chains =>
      match chains with
      | [] => .error (.msg "no valid certificate chains found")
      | chain :: _ => .ok chain

/-! ## Revocation checking (TrustStore.CheckRevocation)

The live OCSP exchange (`CheckOCSP`) performs network I/O; its outcome is
an explicit parameter `ocspOutcome : Except String Bool` giving either the
protocol-level `revoked` flag (`Good → false`, `Revoked → true`) or the
aggregated error (`Unknown`, network or parse failure). -/

/-- Return shape of `CheckRevocation`: the `(bool, error)` pair (Go can
return `(true, err)` in soft-fail mode) and the trust store after the call
(its cache may gain or lose entries). -/
structure RevocationOutcome where
  value : Bool
  err : Option String
  store : TrustStore
deriving Repr

/-- `TrustStore.CheckRevocation(ctx, cert, issuer)` at wall time `now`.
Order of checks as in the source: nil arguments, cache probe (note the
cache-hit branch binds `OCSPCache.Get`'s `notRevoked` result under the
name `revoked` and returns its negation), empty OCSP responder list, then
the live query; a successful live outcome is cached as `!revoked`. -/
def checkRevocation (s : TrustStore) (cert issuer : Option Cert) (now : Int)
    (ocspOutcome : Except String Bool) : RevocationOutcome :=
  match cert, issuer with
  | none, _ => { value := false, err := some "certificate or issuer is nil", store := s }
  | _, none => { value := false, err := some "certificate or issuer is nil", store := s }
  | some cert, some _ =>
    let probe := ocspCacheGet s.ocspCache (some cert) now
    let s := { s with ocspCache := probe.2 }
    let revoked := probe.1.1
    let found := probe.1.2
    if found then
      { value := !revoked, err := none, store := s }
    else if cert.ocspServer.length = 0 then
      { value := true, err := none, store := s }
    else
      match ocspOutcome with
      | .error e =>
        if s.softFail then
          { value := true, err := some ("OCSP check failed (soft-fail enabled): " ++ e), store := s }
        else
          { value := false, err := some ("OCSP check failed: " ++ e), store := s }
      | .ok revoked =>
        let s := { s with ocspCache := ocspCacheSet s.ocspCache (some cert) (!revoked) now }
        { value := !revoked, err := none, store := s }

/-! ## Byte-string utilities

Go byte buffers are modelled as `String` (every sniffed marker is ASCII);
`bytes.Contains`, `bytes.Split`, `bytes.TrimSpace` and `bytes.HasPrefix`
are implemented below over the underlying character lists. -/

/-- `bytes.HasPrefix` on character lists. -/
def charsStartWith : List Char → List Char → Bool
  | _, [] => true
  | [], _ :: _ => false
  | c :: cs, p :: ps => c = p && charsStartWith cs ps

/-- `bytes.Contains` on character lists. -/
def charsContain : List Char → List Char → Bool
  | [], pat => pat.isEmpty
  | c :: cs, pat => charsStartWith (c :: cs) pat || charsContain cs pat

/-- `bytes.Contains(content, pat)` for string-modelled buffers. -/
def goContains (content pat : String) : Bool :=
  charsContain content.data pat.data

/-- `bytes.Split(s, ",")` on character lists. -/
def splitOnComma (l : List Char) : List (List Char) :=
  match l with
  | [] => [[]]
  | c :: rest =>
    let tail := splitOnComma rest
    if c = ',' then [] :: tail
    else match tail with
      | [] => [[c]]
      | t :: ts => (c :: t) :: ts

/-- ASCII whitespace, as recognised by `bytes.TrimSpace` on these inputs. -/
def isSpaceChar (c : Char) : Bool :=
  c = ' ' || c = '\t' || c = '\n' || c = '\r'

/-- `bytes.TrimSpace` on character lists. -/
def trimSpaceChars (l : List Char) : List Char :=
  ((l.dropWhile isSpaceChar).reverse.dropWhile isSpaceChar).reverse

/-- `Error()` text of a Go error (SignatureError.Error and
ParseError.Error, each with no cause). -/
def GoErr.message : GoErr → String
  | .msg s => s
  | .sigErr code field m =>
    if field = "" then "[" ++ code ++ "] " ++ m
    else "[" ++ code ++ "] " ++ field ++ ": " ++ m
  | .parseErr provider field m =>
    "[" ++ provider ++ "] " ++ field ++ ": " ++ m

/-! ## PDF verifier (PDFVerifier, pdf package) -/

/-- One signature block parsed from `pdfsig -dump` output
(`PDFSignature` in the pdf package). -/
structure PdfSignature where
  signerCN : String
  signerDN : String
  signingTime : Option Int
  hashAlgorithm : String
  signatureType : String
  signatureValid : Bool
  certTrusted : Bool
  errorMessage : String
deriving DecidableEq, Repr

/-- `PDFSigOutput`: parsed `pdfsig` report. -/
structure PdfSigOutput where
  signatureCount : Nat
  signatures : List PdfSignature
deriving DecidableEq, Repr

/-- `extractIssuerFromDN`: the first comma-separated component of the DN
that (after trimming) starts with `O=`, without that tag. -/
def extractIssuerFromDN (dn : String) : String :=
  ((splitOnComma dn.data).findSome? (fun part =>
    let t := trimSpaceChars part
    if charsStartWith t ['O', '='] then some (String.mk (t.drop 2)) else none)).getD ""

/-- Environment of one `PDFVerifier.Verify` call: the tool-availability
flag captured at construction, and the outcomes of the file-system,
subprocess and report-parsing steps. -/
structure PdfEnv where
  available : Bool
  tmpCreateErr : Option String
  tmpWriteErr : Option String
  runErr : Option String
  stderrText : String
  stdoutEmpty : Bool
  parseOutcome : Except String PdfSigOutput

/-- `PDFVerifier.Verify(ctx, data)`, following the source branch by
branch: unavailable tool, temp-file failures, subprocess failure with
empty stdout, report parsing, first-signature mapping, extra-signature
warning, and the unconditional `NotRevoked = true` with its warning. -/
def pdfVerify (env : PdfEnv) : VerificationResult × Option GoErr :=
  let r := { newVerificationResult with format := "pdf" }
  if !env.available then
    (addError r "pdfsig tool not available", some (errToolUnavailable "pdfsig"))
  else
    match env.tmpCreateErr with
    | some e => (addError r ("failed to create temp file: " ++ e), some (.msg e))
    | none =>
    match env.tmpWriteErr with
    | some e => (addError r ("failed to write temp file: " ++ e), some (.msg e))
    | none =>
    match env.runErr, env.stdoutEmpty with
    | some e, true =>
      (addError r ("pdfsig failed: " ++ e ++ ", stderr: " ++ env.stderrText), some (.msg e))
    | _, _ =>
    match env.parseOutcome with
    | .error e => (addError r ("failed to parse pdfsig output: " ++ e), some (.msg e))
    | .ok output =>
    if output.signatureCount = 0 then
      (addError r "no signatures found in PDF", some errNoSignature)
    else
      let r := { r with signatureFound := true }
      let r := match output.signatures with
        | [] => r
        | sig :: _ =>
          let r := { r with signatureValid := sig.signatureValid
                            certChainValid := sig.certTrusted }
          let r := match sig.signingTime with
            | some t => { r with signedAt := some t }
            | none => r
          let r :=
            if sig.signerCN ≠ "" || sig.signerDN ≠ "" then
              { r with signer := some ({
                  name := sig.signerCN, organization := "", serialNumber := ""
                  issuer := extractIssuerFromDN sig.signerDN
                  validFrom := 0, validTo := 0 } : SignerInfo) }
            else r
          let r :=
            if !sig.signatureValid then
              addError r ("signature invalid: " ++ sig.errorMessage)
            else r
          if !sig.certTrusted then
            addWarning r "certificate not trusted by pdfsig"
          else r
      let r :=
        if output.signatureCount > 1 then
          addWarning r ("PDF contains " ++ toString output.signatureCount ++
            " signatures, only first verified")
        else r
      let r := addWarning { r with notRevoked := true }
        "OCSP revocation check not performed for PDF signatures"
      (computeValidity r, none)

/-- `GetInstallInstructions()`: the platform-specific install text
(literal in the source; reproduced here up to punctuation quoting). -/
def getInstallInstructions : String :=
  "pdfsig is required for PDF signature verification.\n\nInstallation:\n" ++
  "  - Ubuntu/Debian: sudo apt install poppler-utils\n" ++
  "  - macOS:         brew install poppler\n" ++
  "  - Fedora/RHEL:   sudo dnf install poppler-utils\n" ++
  "  - Windows:       Install poppler from " ++
  "https://github.com/oschwartz10612/poppler-windows/releases\n\n" ++
  "After installation, ensure pdfsig is in your PATH."

/-- `CreateUnavailableResult()`: the canned result built when PDF
verification is unavailable; this is where the install-instructions
warning (`GetInstallInstructions`) is attached. -/
def createUnavailableResult : VerificationResult :=
  let r := { newVerificationResult with format := "pdf" }
  let r := addError r "PDF signature verification unavailable: pdfsig tool not installed"
  addWarning r getInstallInstructions

/-! ## XML verifier (XMLVerifier, internal/signature/xml/verifier.go) -/

/-- Environment of one `XMLVerifier.Verify` call: outcomes of the
etree/goxmldsig library steps and of the OCSP exchange, in source order.
`signedBy` abstracts x509 signature/constraint checking for the chain
search (see `verifyChain`). -/
structure XmlEnv where
  extractErr : Option String
  serializeErr : Option String
  reparseErr : Option String
  reFindSig : Bool
  validateErr : Option String
  certDataOutcome : Except String Unit
  decodeErr : Option String
  parseCertOutcome : Except String Cert
  ocspOutcome : Except String Bool
  signingTime : Option Int
  signedBy : Cert → Cert → Bool

/-- `XMLVerifier.extractAndVerifyCertificate`: certificate-data lookup,
base64 decode, DER parse, then `trustStore.VerifyChain(cert, nil)`.
On chain failure the Go function also returns the certificate, which the
caller ignores; only the error reaches the result. -/
def extractAndVerifyCertificate (env : XmlEnv) (s : TrustStore) :
    Except String (Cert × List Cert) :=
  match env.certDataOutcome with
  | .error e => .error e
  | .ok _ =>
    match env.decodeErr with
    | some e => .error ("failed to decode certificate: " ++ e)
    | none =>
      match env.parseCertOutcome with
      | .error e => .error ("failed to parse certificate: " ++ e)
      | .ok cert =>
        match verifyChain env.signedBy s (some cert) [] with
        | .error e => .error ("chain verification failed: " ++ e.message)
        | .ok chain => .ok (cert, chain)

/-- `XMLVerifier.Verify(ctx, data)` at wall time `now`: the result, the
returned Go error, and the trust store after the call (its OCSP cache may
change).  The branch structure follows the source: extraction, signed
element re-serialization and re-parse, signature re-location, XMLDSig
validation (failure recorded but not fatal), certificate extraction and
chain verification (failure is a warning), revocation with soft-fail
handling, signing time, then `ComputeValidity`. -/
def xmlVerify (env : XmlEnv) (s : TrustStore) (now : Int) :
    (VerificationResult × Option GoErr) × TrustStore :=
  let r := { newVerificationResult with format := "xml" }
  match env.extractErr with
  | some e => ((addError r e, some errNoSignature), s)
  | none =>
    let r := { r with signatureFound := true }
    match env.serializeErr with
    | some e =>
      ((addError r ("failed to serialize signed element: " ++ e), some (.msg e)), s)
    | none =>
    match env.reparseErr with
    | some e =>
      ((addError r ("failed to parse signed XML: " ++ e), some (.msg e)), s)
    | none =>
    if !env.reFindSig then
      ((addError r "signature element not found after re-parsing", some errNoSignature), s)
    else
      let r := match env.validateErr with
        | some e =>
          addError { r with signatureValid := false } ("signature validation failed: " ++ e)
        | none => { r with signatureValid := true }
      let rs := match extractAndVerifyCertificate env s with
        | .error e => (addWarning r ("certificate extraction/verification: " ++ e), s)
        | .ok (cert, chain) =>
          let r := setSigner r (some cert)
          let r := { r with certChain := chain, certChainValid := true }
          if chain.length ≥ 2 then
            let issuer := chain.drop 1 |>.head?
            let ro := checkRevocation s (some cert) issuer now env.ocspOutcome
            let s := ro.store
            match ro.err with
            | some e =>
              if isSoftFail s then
                ({ addWarning r ("OCSP check: " ++ e ++ " (soft-fail enabled)")
                    with notRevoked := true }, s)
              else
                ({ addError r ("OCSP check failed: " ++ e)
                    with notRevoked := false }, s)
            | none =>
              let r := { r with notRevoked := ro.value }
              (if !ro.value then addError r "certificate has been revoked" else r, s)
          else
            (addWarning { r with notRevoked := true }
              "revocation check skipped: no issuer certificate in chain", s)
      let r := match env.signingTime with
        | some t => { rs.1 with signedAt := some t }
        | none => rs.1
      ((computeValidity r, none), rs.2)

/-! ## Unified invoice model (package model)

The model package itself ships outside the copied sources; the record
shapes below are reconstructed from their uses in the five adapters and
the adapter/model tests, and from the spec's data-model section. -/

/-- `model.Provider` tags. -/
inductive Provider where
  | tct | vnpt | misa | viettel | fpt | unknown
deriving DecidableEq, Repr

/-- `model.InvoiceType`: {Normal, Replacement, Adjustment}. -/
inductive InvoiceType where
  | normal | replacement | adjustment
deriving DecidableEq, Repr

/-- A `time.Time` as used by the adapters: calendar fields plus a zone
offset in minutes.  The zero value is Go's zero time
(January 1, year 1, 00:00:00 UTC). -/
structure Date where
  year : Nat := 1
  month : Nat := 1
  day : Nat := 1
  hour : Nat := 0
  minute : Nat := 0
  second : Nat := 0
  offsetMin : Int := 0
deriving DecidableEq, Repr

/-- Go zero `time.Time`. -/
def zeroDate : Date := {}

/-- `model.Party`. -/
structure Party where
  name : String := ""
  taxID : String := ""
  address : String := ""
  phone : String := ""
  email : String := ""
  bankAccount : String := ""
  bankName : String := ""
deriving DecidableEq, Repr

/-- `model.LineItem`; decimals are exact rationals, `vatRate` is the
integer `model.VATRate`. -/
structure LineItem where
  number : Int := 0
  code : String := ""
  name : String := ""
  description : String := ""
  unit : String := ""
  quantity : ℚ := 0
  unitPrice : ℚ := 0
  discount : ℚ := 0
  discountAmt : ℚ := 0
  amount : ℚ := 0
  vatRate : Int := 0
  vatAmount : ℚ := 0
  total : ℚ := 0
deriving DecidableEq, Repr

/-- `model.Signature`: the embedded signature descriptor of a parsed
invoice. -/
structure SignatureDesc where
  value : String := ""
  date : Date := zeroDate
  signerName : String := ""
  signerPosition : String := ""
  certSerial : String := ""
deriving DecidableEq, Repr

/-- `model.Invoice` (the unified invoice); `itype` is the Go `Type` field
and `rawXML` retains the source buffer. -/
structure Invoice where
  number : String := ""
  series : String := ""
  date : Date := zeroDate
  itype : InvoiceType := .normal
  provider : Provider := .unknown
  currency : String := ""
  exchangeRate : ℚ := 0
  seller : Party := {}
  buyer : Party := {}
  items : List LineItem := []
  subtotalAmount : ℚ := 0
  taxAmount : ℚ := 0
  totalAmount : ℚ := 0
  signature : Option SignatureDesc := none
  remarks : String := ""
  paymentTerms : String := ""
  rawXML : String := ""
deriving DecidableEq, Repr

/-! ## Shared parsing helpers (tct.go bottom section and libraries) -/

/-- One decimal digit. -/
def readDigit (c : Char) : Option Nat :=
  if c.isDigit then some (c.toNat - 48) else none

/-- Two-digit field of a Go time layout. -/
def read2 : List Char → Option (Nat × List Char)
  | a :: b :: rest => do
    let x ← readDigit a
    let y ← readDigit b
    pure (x * 10 + y, rest)
  | _ => none

/-- Four-digit year field of a Go time layout. -/
def read4 : List Char → Option (Nat × List Char)
  | a :: b :: c :: d :: rest => do
    let x ← readDigit a
    let y ← readDigit b
    let z ← readDigit c
    let w ← readDigit d
    pure (((x * 10 + y) * 10 + z) * 10 + w, rest)
  | _ => none

/-- Consume one expected literal character. -/
def expectChar (c : Char) : List Char → Option (List Char)
  | x :: rest => if x = c then some rest else none
  | [] => none

/-- Gregorian leap year, as in package time. -/
def isLeapYear (y : Nat) : Bool :=
  y % 4 = 0 && (y % 100 ≠ 0 || y % 400 = 0)

/-- Days in a month, as validated by `time.Parse`. -/
def daysInMonth (y m : Nat) : Nat :=
  if m = 2 then (if isLeapYear y then 29 else 28)
  else if m = 4 || m = 6 || m = 9 || m = 11 then 30
  else 31

/-- Range validation performed by `time.Parse` on its fields. -/
def mkDate (y m d hh mm ss : Nat) (off : Int) : Option Date :=
  if 1 ≤ m && m ≤ 12 && 1 ≤ d && d ≤ daysInMonth y m &&
     hh ≤ 23 && mm ≤ 59 && ss ≤ 59 then
    some { year := y, month := m, day := d, hour := hh, minute := mm
           second := ss, offsetMin := off }
  else none

/-- `time.Parse("2006-01-02", s)`. -/
def parseLayoutYMD (l : List Char) : Option Date := do
  let (y, l) ← read4 l
  let l ← expectChar '-' l
  let (m, l) ← read2 l
  let l ← expectChar '-' l
  let (d, l) ← read2 l
  if l.isEmpty then mkDate y m d 0 0 0 0 else none

/-- `time.Parse("02/01/2006", s)`. -/
def parseLayoutDMY (l : List Char) : Option Date := do
  let (d, l) ← read2 l
  let l ← expectChar '/' l
  let (m, l) ← read2 l
  let l ← expectChar '/' l
  let (y, l) ← read4 l
  if l.isEmpty then mkDate y m d 0 0 0 0 else none

/-- The `15:04:05` clock part of a Go layout. -/
def readClock (l : List Char) : Option ((Nat × Nat × Nat) × List Char) := do
  let (hh, l) ← read2 l
  let l ← expectChar ':' l
  let (mm, l) ← read2 l
  let l ← expectChar ':' l
  let (ss, l) ← read2 l
  pure ((hh, mm, ss), l)

/-- `time.Parse("2006-01-02T15:04:05", s)`. -/
def parseLayoutYMDT (l : List Char) : Option Date := do
  let (y, l) ← read4 l
  let l ← expectChar '-' l
  let (m, l) ← read2 l
  let l ← expectChar '-' l
  let (d, l) ← read2 l
  let l ← expectChar 'T' l
  let ((hh, mm, ss), l) ← readClock l
  if l.isEmpty then mkDate y m d hh mm ss 0 else none

/-- `time.Parse("02/01/2006 15:04:05", s)`. -/
def parseLayoutDMYClock (l : List Char) : Option Date := do
  let (d, l) ← read2 l
  let l ← expectChar '/' l
  let (m, l) ← read2 l
  let l ← expectChar '/' l
  let (y, l) ← read4 l
  let l ← expectChar ' ' l
  let ((hh, mm, ss), l) ← readClock l
  if l.isEmpty then mkDate y m d hh mm ss 0 else none

/-- `time.Parse(time.RFC3339, s)`: datetime plus `Z` or a `±hh:mm`
offset. -/
def parseLayoutRFC3339 (l : List Char) : Option Date := do
  let (y, l) ← read4 l
  let l ← expectChar '-' l
  let (m, l) ← read2 l
  let l ← expectChar '-' l
  let (d, l) ← read2 l
  let l ← expectChar 'T' l
  let ((hh, mm, ss), l) ← readClock l
  match l with
  | ['Z'] => mkDate y m d hh mm ss 0
  | sign :: rest => do
    let signVal : Int ← if sign = '+' then some 1
                        else if sign = '-' then some (-1) else none
    let (oh, rest) ← read2 rest
    let rest ← expectChar ':' rest
    let (om, rest) ← read2 rest
    if rest.isEmpty && oh ≤ 23 && om ≤ 59 then
      mkDate y m d hh mm ss (signVal * (oh * 60 + om))
    else none
  | [] => none

/-- `parseDate` (tct.go): tries the five layouts in declaration order and
returns the first success; an unparseable string is an error. -/
def parseDate (s : String) : Option Date :=
  (parseLayoutYMD s.data).orElse fun _ =>
  (parseLayoutDMY s.data).orElse fun _ =>
  (parseLayoutYMDT s.data).orElse fun _ =>
  (parseLayoutDMYClock s.data).orElse fun _ =>
  parseLayoutRFC3339 s.data

/-- `parseInvoiceType` (tct.go): an exact-casing switch; everything not on
the six listed strings defaults to Normal. -/
def parseInvoiceType (s : String) : InvoiceType :=
  if s = "Replacement" ∨ s = "replacement" ∨ s = "REPLACEMENT" then .replacement
  else if s = "Adjustment" ∨ s = "adjustment" ∨ s = "ADJUSTMENT" then .adjustment
  else .normal

/-- ASCII lower-casing (`strings.ToLower` on ASCII input), used to state
which strings are casings of a keyword. -/
def asciiLower (s : String) : String :=
  String.mk (s.data.map (fun c =>
    if 'A' ≤ c && c ≤ 'Z' then Char.ofNat (c.toNat + 32) else c))

/-- Longest digit run at the head of the list, as accumulated value and
count. -/
def readDigitRun : List Char → (Nat × Nat) × List Char
  | [] => ((0, 0), [])
  | c :: rest =>
    match readDigit c with
    | none => ((0, 0), c :: rest)
    | some d =>
      let ((v, n), l) := readDigitRun rest
      ((d * 10 ^ n + v, n + 1), l)

/-- Model of `decimal.NewFromString` (shopspring): optional sign, integer
digits, optional fraction digits, optional exponent; at least one digit
overall and no trailing garbage. -/
def decimalNewFromString (s : String) : Option ℚ :=
  let l := s.data
  let (sign, l) : Int × List Char :=
    match l with
    | '-' :: rest => (-1, rest)
    | '+' :: rest => (1, rest)
    | _ => (1, l)
  let ((iv, ic), l) := readDigitRun l
  let ((fv, fc), l) :=
    match l with
    | '.' :: rest =>
      let ((fv, fc), rest) := readDigitRun rest
      ((fv, fc), rest)
    | _ => ((0, 0), l)
  if ic + fc = 0 then none
  else
    let mantissa : Int := sign * (iv * 10 ^ fc + fv)
    match l with
    | [] => some (mkRat mantissa (10 ^ fc))
    | 'e' :: rest | 'E' :: rest =>
      let (eneg, rest) : Bool × List Char :=
        match rest with
        | '-' :: r => (true, r)
        | '+' :: r => (false, r)
        | _ => (false, rest)
      let ((ev, ec), rest) := readDigitRun rest
      if ec = 0 || !rest.isEmpty then none
      else if eneg then some (mkRat mantissa (10 ^ (fc + ev)))
      else some (mkRat (mantissa * (10 ^ ev : Nat)) (10 ^ fc))
    | _ => none

/-- `decimal.Decimal.IntPart()`: truncation toward zero. -/
def ratIntPart (q : ℚ) : Int :=
  if q ≥ 0 then q.floor else -((-q).floor)

/-! ## TCT adapter (internal/parser/xml/tct.go)

The `xml.Unmarshal` library call is threaded as an explicit oracle
argument of each `Parse`; a concrete oracle for flat documents is defined
further below for the literal test seeds. -/

/-- `tctParty`. -/
structure TctParty where
  name : String := ""
  address : String := ""
  taxID : String := ""
  phoneNumber : String := ""
  email : String := ""
  bankAccount : String := ""
  bankName : String := ""
deriving DecidableEq, Repr

/-- `tctItem`; numeric text fields stay strings as in the source. -/
structure TctItem where
  itemNo : Int := 0
  itemCode : String := ""
  itemName : String := ""
  description : String := ""
  unitOfMeasure : String := ""
  quantity : String := ""
  unitPrice : String := ""
  discount : String := ""
  amount : String := ""
  taxRatePercent : Int := 0
  taxAmount : String := ""
  lineTotal : String := ""
deriving DecidableEq, Repr

/-- `tctSig`. -/
structure TctSig where
  signatureValue : String := ""
  signatureDate : String := ""
  signerName : String := ""
  signerPosition : String := ""
  certificateNo : String := ""
deriving DecidableEq, Repr

/-- `tctInvoice`. -/
structure TctInvoice where
  invoiceNo : String := ""
  invoiceSeries : String := ""
  invoiceDate : String := ""
  invoiceType : String := ""
  currency : String := ""
  exchangeRate : String := ""
  seller : TctParty := {}
  buyer : TctParty := {}
  items : List TctItem := []
  subtotalAmount : String := ""
  taxAmount : String := ""
  totalAmount : String := ""
  paymentTerms : String := ""
  remarks : String := ""
  signature : Option TctSig := none
deriving DecidableEq, Repr

/-- `convertTCTParty`. -/
def convertTCTParty (p : TctParty) : Party :=
  { name := p.name, taxID := p.taxID, address := p.address
    phone := p.phoneNumber, email := p.email
    bankAccount := p.bankAccount, bankName := p.bankName }

/-- `convertTCTItem`: unparseable decimal fields become zero; the error
result of the Go function is always nil, kept in the type. -/
def convertTCTItem (item : TctItem) : Except GoErr LineItem :=
  .ok { number := item.itemNo, code := item.itemCode, name := item.itemName
        description := item.description, unit := item.unitOfMeasure
        vatRate := item.taxRatePercent
        quantity := (decimalNewFromString item.quantity).getD 0
        unitPrice := (decimalNewFromString item.unitPrice).getD 0
        discount := (decimalNewFromString item.discount).getD 0
        amount := (decimalNewFromString item.amount).getD 0
        vatAmount := (decimalNewFromString item.taxAmount).getD 0
        total := (decimalNewFromString item.lineTotal).getD 0 }

/-- The item loop of `TCTAdapter.convertInvoice`. -/
def convertTctItems : List TctItem → Except GoErr (List LineItem)
  | [] => .ok []
  | i :: rest => do
    let li ← convertTCTItem i
    let ls ← convertTctItems rest
    pure (li :: ls)

/-- `convertTCTSignature`. -/
def convertTCTSignature (sig : TctSig) : SignatureDesc :=
  { value := sig.signatureValue, signerName := sig.signerName
    signerPosition := sig.signerPosition, certSerial := sig.certificateNo
    date := (parseDate sig.signatureDate).getD zeroDate }

/-- `TCTAdapter.convertInvoice(inv, rawXML)`: field mapping into the
unified invoice; dates and decimals are parsed tolerantly (failures leave
the zero value). -/
def convertTctInvoice (inv : TctInvoice) (rawXML : String) : Except GoErr Invoice :=
  match convertTctItems inv.items with
  | .error e => .error e
  | .ok items =>
    let base : Invoice :=
      { number := inv.invoiceNo, series := inv.invoiceSeries, provider := .tct
        currency := inv.currency, remarks := inv.remarks
        paymentTerms := inv.paymentTerms, rawXML := rawXML }
    let base := match parseDate inv.invoiceDate with
      | some d => { base with date := d }
      | none => base
    let base := { base with itype := parseInvoiceType inv.invoiceType }
    let base := match decimalNewFromString inv.exchangeRate with
      | some rate => { base with exchangeRate := rate }
      | none => base
    let base := { base with seller := convertTCTParty inv.seller
                            buyer := convertTCTParty inv.buyer }
    let base := { base with items := items }
    let base := match decimalNewFromString inv.subtotalAmount with
      | some amt => { base with subtotalAmount := amt }
      | none => base
    let base := match decimalNewFromString inv.taxAmount with
      | some amt => { base with taxAmount := amt }
      | none => base
    let base := match decimalNewFromString inv.totalAmount with
      | some amt => { base with totalAmount := amt }
      | none => base
    let base := match inv.signature with
      | some sig => { base with signature := some (convertTCTSignature sig) }
      | none => base
    .ok base

/-- `TCTAdapter.CanParse`. -/
def tctCanParse (content : String) : Bool :=
  goContains content "<Invoice>" && goContains content "<TaxID>" &&
  !goContains content "vnpt" && !goContains content "<MST>" &&
  !goContains content "<SInvoice>"

/-- The multiple-invoices fallback of `TCTAdapter.Parse`: unmarshal an
`Invoices` collection and convert its first invoice. -/
def tctParseMulti (unmMulti : String → Except String (List TctInvoice))
    (content : String) : Except GoErr Invoice :=
  match unmMulti content with
  | .error _ => .error (.parseErr "TCT" "xml" "failed to parse XML")
  | .ok [] => .error (.parseErr "TCT" "invoices" "no invoices found")
  | .ok (first :: _) => convertTctInvoice first content

/-- `TCTAdapter.Parse`: first tries to unmarshal a single `Invoice`
document (accepted when `InvoiceNo` is nonempty), then falls back to the
`Invoices` collection. -/
def tctParse (unmSingle : String → Except String TctInvoice)
    (unmMulti : String → Except String (List TctInvoice))
    (content : String) : Except GoErr Invoice :=
  match unmSingle content with
  | .ok single =>
    if single.invoiceNo ≠ "" then convertTctInvoice single content
    else tctParseMulti unmMulti content
  | .error _ => tctParseMulti unmMulti content

/-! ## VNPT adapter (internal/parser/xml/vnpt.go) -/

/-- `vnptSeller`. -/
structure VnptSeller where
  sellerName : String := ""
  sellerTaxCode : String := ""
  sellerAddress : String := ""
  sellerPhone : String := ""
  sellerEmail : String := ""
  sellerBankAcc : String := ""
  sellerBankName : String := ""
deriving DecidableEq, Repr

/-- `vnptBuyer`. -/
structure VnptBuyer where
  buyerName : String := ""
  buyerTaxCode : String := ""
  buyerAddress : String := ""
  buyerPhone : String := ""
  buyerEmail : String := ""
  buyerBankAcc : String := ""
  buyerBankName : String := ""
deriving DecidableEq, Repr

/-- `vnptProduct`. -/
structure VnptProduct where
  lineNo : Int := 0
  prodCode : String := ""
  prodName : String := ""
  prodUnit : String := ""
  prodQuantity : String := ""
  prodPrice : String := ""
  discount : String := ""
  discountAmt : String := ""
  amount : String := ""
  vatRate : String := ""
  vatAmount : String := ""
  total : String := ""
deriving DecidableEq, Repr

/-- `vnptSummary`. -/
structure VnptSummary where
  totalAmount : String := ""
  totalDiscount : String := ""
  totalVATAmount : String := ""
  totalPayment : String := ""
  amountInWords : String := ""
deriving DecidableEq, Repr

/-- `vnptSign`. -/
structure VnptSign where
  signatureValue : String := ""
  signedDate : String := ""
  signerName : String := ""
  signerTitle : String := ""
  certSerial : String := ""
deriving DecidableEq, Repr

/-- `vnptInvoice`. -/
structure VnptInvoice where
  invoiceNo : String := ""
  invoiceSeries : String := ""
  invoiceDate : String := ""
  invoiceType : String := ""
  currency : String := ""
  exchangeRate : String := ""
  seller : VnptSeller := {}
  buyer : VnptBuyer := {}
  products : List VnptProduct := []
  summary : VnptSummary := {}
  paymentMethod : String := ""
  paymentTerms : String := ""
  note : String := ""
  signInfo : Option VnptSign := none
deriving DecidableEq, Repr

/-- `convertVNPTProduct`: each decimal field is set only when its string
parses (otherwise the zero value stays). -/
def convertVNPTProduct (prod : VnptProduct) : LineItem :=
  let it : LineItem :=
    { number := prod.lineNo, code := prod.prodCode, name := prod.prodName
      unit := prod.prodUnit }
  let it := match decimalNewFromString prod.vatRate with
    | some rate => { it with vatRate := ratIntPart rate }
    | none => it
  let it := match decimalNewFromString prod.prodQuantity with
    | some q => { it with quantity := q }
    | none => it
  let it := match decimalNewFromString prod.prodPrice with
    | some p => { it with unitPrice := p }
    | none => it
  let it := match decimalNewFromString prod.discount with
    | some d => { it with discount := d }
    | none => it
  let it := match decimalNewFromString prod.discountAmt with
    | some d => { it with discountAmt := d }
    | none => it
  let it := match decimalNewFromString prod.amount with
    | some a => { it with amount := a }
    | none => it
  let it := match decimalNewFromString prod.vatAmount with
    | some v => { it with vatAmount := v }
    | none => it
  match decimalNewFromString prod.total with
  | some t => { it with total := t }
  | none => it

/-- `convertVNPTSignature`. -/
def convertVNPTSignature (sig : VnptSign) : SignatureDesc :=
  { value := sig.signatureValue, signerName := sig.signerName
    signerPosition := sig.signerTitle, certSerial := sig.certSerial
    date := (parseDate sig.signedDate).getD zeroDate }

/-- `VNPTAdapter.convertInvoice`. -/
def convertVnptInvoice (inv : VnptInvoice) (rawXML : String) : Except GoErr Invoice :=
  let base : Invoice :=
    { number := inv.invoiceNo, series := inv.invoiceSeries, provider := .vnpt
      currency := inv.currency, remarks := inv.note
      paymentTerms := inv.paymentTerms, rawXML := rawXML }
  let base := match parseDate inv.invoiceDate with
    | some d => { base with date := d }
    | none => base
  let base := { base with itype := parseInvoiceType inv.invoiceType }
  let base := match decimalNewFromString inv.exchangeRate with
    | some rate => { base with exchangeRate := rate }
    | none => base
  let base := { base with
    seller := { name := inv.seller.sellerName, taxID := inv.seller.sellerTaxCode
                address := inv.seller.sellerAddress, phone := inv.seller.sellerPhone
                email := inv.seller.sellerEmail
                bankAccount := inv.seller.sellerBankAcc
                bankName := inv.seller.sellerBankName }
    buyer := { name := inv.buyer.buyerName, taxID := inv.buyer.buyerTaxCode
               address := inv.buyer.buyerAddress, phone := inv.buyer.buyerPhone
               email := inv.buyer.buyerEmail
               bankAccount := inv.buyer.buyerBankAcc
               bankName := inv.buyer.buyerBankName } }
  let base := { base with items := inv.products.map convertVNPTProduct }
  let base := match decimalNewFromString inv.summary.totalAmount with
    | some amt => { base with subtotalAmount := amt }
    | none => base
  let base := match decimalNewFromString inv.summary.totalVATAmount with
    | some amt => { base with taxAmount := amt }
    | none => base
  let base := match decimalNewFromString inv.summary.totalPayment with
    | some amt => { base with totalAmount := amt }
    | none => base
  let base := match inv.signInfo with
    | some sig => { base with signature := some (convertVNPTSignature sig) }
    | none => base
  .ok base

/-- `VNPTAdapter.CanParse`. -/
def vnptCanParse (content : String) : Bool :=
  goContains content "<SInvoice>" || goContains content "vnpt" ||
  goContains content "VNPT"

/-- `VNPTAdapter.Parse`. -/
def vnptParse (unm : String → Except String VnptInvoice) (content : String) :
    Except GoErr Invoice :=
  match unm content with
  | .error _ => .error (.parseErr "VNPT" "xml" "failed to parse XML")
  | .ok inv => convertVnptInvoice inv content

/-! ## MISA adapter (internal/parser/xml/misa.go) -/

/-- `misaInvoiceData`. -/
structure MisaInvoiceData where
  invoiceNumber : String := ""
  invoiceSeries : String := ""
  invoiceDate : String := ""
  invoiceType : String := ""
  currencyCode : String := ""
  exchangeRate : String := ""
  paymentMethod : String := ""
  paymentTerms : String := ""
  description : String := ""
deriving DecidableEq, Repr

/-- `misaParty`. -/
structure MisaParty where
  mst : String := ""
  companyName : String := ""
  address : String := ""
  phone : String := ""
  email : String := ""
  bankAccount : String := ""
  bankName : String := ""
deriving DecidableEq, Repr

/-- `misaItem`. -/
structure MisaItem where
  stt : Int := 0
  maHang : String := ""
  tenHang : String := ""
  moTa : String := ""
  dvt : String := ""
  soLuong : String := ""
  donGia : String := ""
  chietKhau : String := ""
  tienCK : String := ""
  thanhTien : String := ""
  thueSuat : String := ""
  tienThue : String := ""
  tongCong : String := ""
deriving DecidableEq, Repr

/-- `misaTotals`. -/
structure MisaTotals where
  tongTienHang : String := ""
  tongChietKhau : String := ""
  tongTienThue : String := ""
  tongThanhToan : String := ""
  soTienBangChu : String := ""
deriving DecidableEq, Repr

/-- `misaSignature`. -/
structure MisaSignature where
  giaTriChuKy : String := ""
  ngayKy : String := ""
  nguoiKy : String := ""
  chucDanh : String := ""
  soChungThu : String := ""
deriving DecidableEq, Repr

/-- `misaInvoice`. -/
structure MisaInvoice where
  invoiceData : MisaInvoiceData := {}
  sellerInfo : MisaParty := {}
  buyerInfo : MisaParty := {}
  items : List MisaItem := []
  totalSection : MisaTotals := {}
  signatureInfo : Option MisaSignature := none
deriving DecidableEq, Repr

/-- `convertMISAItem`. -/
def convertMISAItem (item : MisaItem) : LineItem :=
  let it : LineItem :=
    { number := item.stt, code := item.maHang, name := item.tenHang
      description := item.moTa, unit := item.dvt }
  let it := match decimalNewFromString item.thueSuat with
    | some rate => { it with vatRate := ratIntPart rate }
    | none => it
  let it := match decimalNewFromString item.soLuong with
    | some q => { it with quantity := q }
    | none => it
  let it := match decimalNewFromString item.donGia with
    | some p => { it with unitPrice := p }
    | none => it
  let it := match decimalNewFromString item.chietKhau with
    | some d => { it with discount := d }
    | none => it
  let it := match decimalNewFromString item.tienCK with
    | some d => { it with discountAmt := d }
    | none => it
  let it := match decimalNewFromString item.thanhTien with
    | some a => { it with amount := a }
    | none => it
  let it := match decimalNewFromString item.tienThue with
    | some v => { it with vatAmount := v }
    | none => it
  match decimalNewFromString item.tongCong with
  | some t => { it with total := t }
  | none => it

/-- `convertMISASignature`. -/
def convertMISASignature (sig : MisaSignature) : SignatureDesc :=
  { value := sig.giaTriChuKy, signerName := sig.nguoiKy
    signerPosition := sig.chucDanh, certSerial := sig.soChungThu
    date := (parseDate sig.ngayKy).getD zeroDate }

/-- `MISAAdapter.convertInvoice`. -/
def convertMisaInvoice (inv : MisaInvoice) (rawXML : String) : Except GoErr Invoice :=
  let base : Invoice :=
    { number := inv.invoiceData.invoiceNumber
      series := inv.invoiceData.invoiceSeries, provider := .misa
      currency := inv.invoiceData.currencyCode
      remarks := inv.invoiceData.description
      paymentTerms := inv.invoiceData.paymentTerms, rawXML := rawXML }
  let base := match parseDate inv.invoiceData.invoiceDate with
    | some d => { base with date := d }
    | none => base
  let base := { base with itype := parseInvoiceType inv.invoiceData.invoiceType }
  let base := match decimalNewFromString inv.invoiceData.exchangeRate with
    | some rate => { base with exchangeRate := rate }
    | none => base
  let base := { base with
    seller := { name := inv.sellerInfo.companyName, taxID := inv.sellerInfo.mst
                address := inv.sellerInfo.address, phone := inv.sellerInfo.phone
                email := inv.sellerInfo.email
                bankAccount := inv.sellerInfo.bankAccount
                bankName := inv.sellerInfo.bankName }
    buyer := { name := inv.buyerInfo.companyName, taxID := inv.buyerInfo.mst
               address := inv.buyerInfo.address, phone := inv.buyerInfo.phone
               email := inv.buyerInfo.email
               bankAccount := inv.buyerInfo.bankAccount
               bankName := inv.buyerInfo.bankName } }
  let base := { base with items := inv.items.map convertMISAItem }
  let base := match decimalNewFromString inv.totalSection.tongTienHang with
    | some amt => { base with subtotalAmount := amt }
    | none => base
  let base := match decimalNewFromString inv.totalSection.tongTienThue with
    | some amt => { base with taxAmount := amt }
    | none => base
  let base := match decimalNewFromString inv.totalSection.tongThanhToan with
    | some amt => { base with totalAmount := amt }
    | none => base
  let base := match inv.signatureInfo with
    | some sig => { base with signature := some (convertMISASignature sig) }
    | none => base
  .ok base

/-- `MISAAdapter.CanParse`. -/
def misaCanParse (content : String) : Bool :=
  goContains content "<MST>" || goContains content "<TenHang>" ||
  goContains content "MISA" || goContains content "misa"

/-- `MISAAdapter.Parse`. -/
def misaParse (unm : String → Except String MisaInvoice) (content : String) :
    Except GoErr Invoice :=
  match unm content with
  | .error _ => .error (.parseErr "MISA" "xml" "failed to parse XML")
  | .ok inv => convertMisaInvoice inv content

/-! ## FPT adapter (internal/parser/xml/fpt.go) -/

/-- `fptHeader`. -/
structure FptHeader where
  invoiceNumber : String := ""
  invoiceSeries : String := ""
  invoiceDate : String := ""
  invoiceType : String := ""
  currencyCode : String := ""
  exchangeRate : String := ""
  paymentMethod : String := ""
  dueDate : String := ""
  notes : String := ""
deriving DecidableEq, Repr

/-- `fptCompany`. -/
structure FptCompany where
  companyCode : String := ""
  companyName : String := ""
  taxCode : String := ""
  address : String := ""
  phoneNumber : String := ""
  emailAddress : String := ""
  bankAccountNo : String := ""
  bankName : String := ""
  contactPerson : String := ""
deriving DecidableEq, Repr

/-- `fptLine`. -/
structure FptLine where
  lineNumber : Int := 0
  productCode : String := ""
  productName : String := ""
  productDesc : String := ""
  unitOfMeasure : String := ""
  quantity : String := ""
  unitPrice : String := ""
  discountRate : String := ""
  discountAmount : String := ""
  lineAmount : String := ""
  vatRatePercent : String := ""
  vatAmount : String := ""
  lineTotal : String := ""
deriving DecidableEq, Repr

/-- `fptTotals`. -/
structure FptTotals where
  subTotal : String := ""
  totalDiscount : String := ""
  totalVAT : String := ""
  grandTotal : String := ""
  amountInWords : String := ""
deriving DecidableEq, Repr

/-- `fptSignature`. -/
structure FptSignature where
  signatureValue : String := ""
  signedDateTime : String := ""
  signerFullName : String := ""
  signerJobTitle : String := ""
  certificateSerial : String := ""
deriving DecidableEq, Repr

/-- `fptSignatures`. -/
structure FptSignatures where
  sellerSignature : Option FptSignature := none
  buyerSignature : Option FptSignature := none
deriving DecidableEq, Repr

/-- `fptInvoice`. -/
structure FptInvoice where
  header : FptHeader := {}
  seller : FptCompany := {}
  buyer : FptCompany := {}
  lines : List FptLine := []
  totals : FptTotals := {}
  signatures : Option FptSignatures := none
deriving DecidableEq, Repr

/-- `convertFPTLine`. -/
def convertFPTLine (line : FptLine) : LineItem :=
  let it : LineItem :=
    { number := line.lineNumber, code := line.productCode
      name := line.productName, description := line.productDesc
      unit := line.unitOfMeasure }
  let it := match decimalNewFromString line.vatRatePercent with
    | some rate => { it with vatRate := ratIntPart rate }
    | none => it
  let it := match decimalNewFromString line.quantity with
    | some q => { it with quantity := q }
    | none => it
  let it := match decimalNewFromString line.unitPrice with
    | some p => { it with unitPrice := p }
    | none => it
  let it := match decimalNewFromString line.discountRate with
    | some d => { it with discount := d }
    | none => it
  let it := match decimalNewFromString line.discountAmount with
    | some d => { it with discountAmt := d }
    | none => it
  let it := match decimalNewFromString line.lineAmount with
    | some a => { it with amount := a }
    | none => it
  let it := match decimalNewFromString line.vatAmount with
    | some v => { it with vatAmount := v }
    | none => it
  match decimalNewFromString line.lineTotal with
  | some t => { it with total := t }
  | none => it

/-- `convertFPTSignature`. -/
def convertFPTSignature (sig : FptSignature) : SignatureDesc :=
  { value := sig.signatureValue, signerName := sig.signerFullName
    signerPosition := sig.signerJobTitle, certSerial := sig.certificateSerial
    date := (parseDate sig.signedDateTime).getD zeroDate }

/-- `FPTAdapter.convertInvoice`; the seller signature is the primary
signature. -/
def convertFptInvoice (inv : FptInvoice) (rawXML : String) : Except GoErr Invoice :=
  let base : Invoice :=
    { number := inv.header.invoiceNumber, series := inv.header.invoiceSeries
      provider := .fpt, currency := inv.header.currencyCode
      remarks := inv.header.notes, rawXML := rawXML }
  let base := match parseDate inv.header.invoiceDate with
    | some d => { base with date := d }
    | none => base
  let base := { base with itype := parseInvoiceType inv.header.invoiceType }
  let base := match decimalNewFromString inv.header.exchangeRate with
    | some rate => { base with exchangeRate := rate }
    | none => base
  let base := { base with
    seller := { name := inv.seller.companyName, taxID := inv.seller.taxCode
                address := inv.seller.address, phone := inv.seller.phoneNumber
                email := inv.seller.emailAddress
                bankAccount := inv.seller.bankAccountNo
                bankName := inv.seller.bankName }
    buyer := { name := inv.buyer.companyName, taxID := inv.buyer.taxCode
               address := inv.buyer.address, phone := inv.buyer.phoneNumber
               email := inv.buyer.emailAddress
               bankAccount := inv.buyer.bankAccountNo
               bankName := inv.buyer.bankName } }
  let base := { base with items := inv.lines.map convertFPTLine }
  let base := match decimalNewFromString inv.totals.subTotal with
    | some amt => { base with subtotalAmount := amt }
    | none => base
  let base := match decimalNewFromString inv.totals.totalVAT with
    | some amt => { base with taxAmount := amt }
    | none => base
  let base := match decimalNewFromString inv.totals.grandTotal with
    | some amt => { base with totalAmount := amt }
    | none => base
  let base := match inv.signatures with
    | some sigs =>
      match sigs.sellerSignature with
      | some sig => { base with signature := some (convertFPTSignature sig) }
      | none => base
    | none => base
  .ok base

/-- `FPTAdapter.CanParse`. -/
def fptCanParse (content : String) : Bool :=
  goContains content "<EInvoice>" || goContains content "fpt" ||
  goContains content "FPT"

/-- `FPTAdapter.Parse`. -/
def fptParse (unm : String → Except String FptInvoice) (content : String) :
    Except GoErr Invoice :=
  match unm content with
  | .error _ => .error (.parseErr "FPT" "xml" "failed to parse XML")
  | .ok inv => convertFptInvoice inv content

/-! ## Viettel adapter (ViettelAdapter; flat HDon layout and the nested
DLHDon/NDHDon layout) -/

/-- `viettelInvoiceInfo` (TTChung). -/
structure ViettelInvoiceInfo where
  khmsHDon : String := ""
  shDon : String := ""
  nLap : String := ""
  lhDon : String := ""
  dvtTe : String := ""
  tGia : String := ""
  httToan : String := ""
  thDon : String := ""
  gChu : String := ""
deriving DecidableEq, Repr

/-- `viettelParty` (NBan/NMua). -/
structure ViettelParty where
  mst : String := ""
  ten : String := ""
  dChi : String := ""
  sdThoai : String := ""
  dctdTu : String := ""
  stkNHang : String := ""
  tnHang : String := ""
deriving DecidableEq, Repr

/-- `viettelItem` (HHDVu). -/
structure ViettelItem where
  stt : Int := 0
  mhhDVu : String := ""
  thhDVu : String := ""
  dvTinh : String := ""
  sLuong : String := ""
  dGia : String := ""
  tlcKhau : String := ""
  stcKhau : String := ""
  thTien : String := ""
  tSuat : String := ""
  tThue : String := ""
  tgTToan : String := ""
deriving DecidableEq, Repr

/-- `viettelSummary` (TToan). -/
structure ViettelSummary where
  tgTCThue : String := ""
  tgTThue : String := ""
  tgTTTBSo : String := ""
  tgTTTBChu : String := ""
deriving DecidableEq, Repr

/-- `viettelSignature` (CKS). -/
structure ViettelSignature where
  gtcKy : String := ""
  nKy : String := ""
  tNguoiKy : String := ""
  cDanhKy : String := ""
  shcThu : String := ""
deriving DecidableEq, Repr

/-- `viettelInvoiceContent` (NDHDon wrapper). -/
structure ViettelInvoiceContent where
  sellerInfo : ViettelParty := {}
  buyerInfo : ViettelParty := {}
  products : List ViettelItem := []
  summary : ViettelSummary := {}
deriving DecidableEq, Repr

/-- `viettelDataLayer` (DLHDon wrapper). -/
structure ViettelDataLayer where
  invoiceInfo : ViettelInvoiceInfo := {}
  invoiceContent : Option ViettelInvoiceContent := none
deriving DecidableEq, Repr

/-- `viettelInvoice` (HDon root, both layouts). -/
structure ViettelInvoice where
  dataLayer : Option ViettelDataLayer := none
  invoiceInfo : ViettelInvoiceInfo := {}
  sellerInfo : ViettelParty := {}
  buyerInfo : ViettelParty := {}
  products : List ViettelItem := []
  summary : ViettelSummary := {}
  signatureBlock : Option (List ViettelSignature) := none
deriving DecidableEq, Repr

/-- `convertViettelItem`. -/
def convertViettelItem (item : ViettelItem) : LineItem :=
  let it : LineItem :=
    { number := item.stt, code := item.mhhDVu, name := item.thhDVu
      unit := item.dvTinh }
  let it := match decimalNewFromString item.tSuat with
    | some rate => { it with vatRate := ratIntPart rate }
    | none => it
  let it := match decimalNewFromString item.sLuong with
    | some q => { it with quantity := q }
    | none => it
  let it := match decimalNewFromString item.dGia with
    | some p => { it with unitPrice := p }
    | none => it
  let it := match decimalNewFromString item.tlcKhau with
    | some d => { it with discount := d }
    | none => it
  let it := match decimalNewFromString item.stcKhau with
    | some d => { it with discountAmt := d }
    | none => it
  let it := match decimalNewFromString item.thTien with
    | some a => { it with amount := a }
    | none => it
  let it := match decimalNewFromString item.tThue with
    | some v => { it with vatAmount := v }
    | none => it
  match decimalNewFromString item.tgTToan with
  | some t => { it with total := t }
  | none => it

/-- `convertViettelSignature`. -/
def convertViettelSignature (sig : ViettelSignature) : SignatureDesc :=
  { value := sig.gtcKy, signerName := sig.tNguoiKy
    signerPosition := sig.cDanhKy, certSerial := sig.shcThu
    date := (parseDate sig.nKy).getD zeroDate }

/-- `ViettelAdapter.convertInvoice`: selects the nested TCT 2.0 layout when
the `DLHDon` wrapper is present (falling back to zero values when `NDHDon`
is absent), else the legacy flat layout; the signature block is read from
the top level in both cases. -/
def convertViettelInvoice (inv : ViettelInvoice) (rawXML : String) :
    Except GoErr Invoice :=
  let selected :
      ViettelInvoiceInfo × ViettelParty × ViettelParty ×
      List ViettelItem × ViettelSummary :=
    match inv.dataLayer with
    | some dl =>
      match dl.invoiceContent with
      | some content =>
        (dl.invoiceInfo, content.sellerInfo, content.buyerInfo,
         content.products, content.summary)
      | none => (dl.invoiceInfo, {}, {}, [], {})
    | none =>
      (inv.invoiceInfo, inv.sellerInfo, inv.buyerInfo, inv.products, inv.summary)
  let (invoiceInfo, sellerInfo, buyerInfo, products, summary) := selected
  let base : Invoice :=
    { number := invoiceInfo.shDon, series := invoiceInfo.khmsHDon
      provider := .viettel, currency := invoiceInfo.dvtTe
      remarks := invoiceInfo.gChu, rawXML := rawXML }
  let base := match parseDate invoiceInfo.nLap with
    | some d => { base with date := d }
    | none => base
  let base := { base with itype := parseInvoiceType invoiceInfo.lhDon }
  let base := match decimalNewFromString invoiceInfo.tGia with
    | some rate => { base with exchangeRate := rate }
    | none => base
  let base := { base with
    seller := { name := sellerInfo.ten, taxID := sellerInfo.mst
                address := sellerInfo.dChi, phone := sellerInfo.sdThoai
                email := sellerInfo.dctdTu, bankAccount := sellerInfo.stkNHang
                bankName := sellerInfo.tnHang }
    buyer := { name := buyerInfo.ten, taxID := buyerInfo.mst
               address := buyerInfo.dChi, phone := buyerInfo.sdThoai
               email := buyerInfo.dctdTu, bankAccount := buyerInfo.stkNHang
               bankName := buyerInfo.tnHang } }
  let base := { base with items := products.map convertViettelItem }
  let base := match decimalNewFromString summary.tgTCThue with
    | some amt => { base with subtotalAmount := amt }
    | none => base
  let base := match decimalNewFromString summary.tgTThue with
    | some amt => { base with taxAmount := amt }
    | none => base
  let base := match decimalNewFromString summary.tgTTTBSo with
    | some amt => { base with totalAmount := amt }
    | none => base
  let base := match inv.signatureBlock with
    | some (sig :: _) => { base with signature := some (convertViettelSignature sig) }
    | _ => base
  .ok base

/-- `ViettelAdapter.CanParse`. -/
def viettelCanParse (content : String) : Bool :=
  goContains content "<HDon>" || goContains content "<KHMSHDon>" ||
  goContains content "viettel" || goContains content "sinvoice"

/-- `ViettelAdapter.Parse`. -/
def viettelParse (unm : String → Except String ViettelInvoice) (content : String) :
    Except GoErr Invoice :=
  match unm content with
  | .error _ => .error (.parseErr "Viettel" "xml" "failed to parse XML")
  | .ok inv => convertViettelInvoice inv content

/-! ## Adapter registry (internal/parser/xml/adapter.go) -/

/-- `Registry.Detect` over the `NewRegistry()` adapter order
(VNPT, Viettel, FPT, MISA, TCT): returns the provider of the first adapter
whose `CanParse` accepts the buffer (`none` models the no-match
`ParseError`). -/
def registryDetect (content : String) : Option Provider :=
  if vnptCanParse content then some .vnpt
  else if viettelCanParse content then some .viettel
  else if fptCanParse content then some .fpt
  else if misaCanParse content then some .misa
  else if tctCanParse content then some .tct
  else none

/-! ## Concrete unmarshal oracle for flat documents

Models `encoding/xml.Unmarshal` for the tagged `tctInvoice` structure on
simple element-per-field documents (no attributes, entities or repeated
tags outside their structural position), which covers the spec's literal
test seeds.  Field text is the content between `<Tag>` and `</Tag>`. -/

/-- Suffix strictly after the first occurrence of `pat` (nonempty). -/
def dropAfterFirst : List Char → List Char → Option (List Char)
  | [], _ => none
  | c :: cs, pat =>
    if charsStartWith (c :: cs) pat then some ((c :: cs).drop pat.length)
    else dropAfterFirst cs pat

/-- Characters before the first occurrence of `pat` (nonempty). -/
def takeBeforeFirst : List Char → List Char → Option (List Char)
  | [], _ => none
  | c :: cs, pat =>
    if charsStartWith (c :: cs) pat then some []
    else (takeBeforeFirst cs pat).map (fun l => c :: l)

/-- Text between the first `openTag` and the following `closeTag`. -/
def extractBetween (s openTag closeTag : String) : Option String :=
  (dropAfterFirst s.data openTag.data).bind fun rest =>
  (takeBeforeFirst rest closeTag.data).map String.mk

/-- Character data of element `tag` (`""` when the element is absent,
matching the Go zero value). -/
def extractTag (s tag : String) : String :=
  (extractBetween s ("<" ++ tag ++ ">") ("</" ++ tag ++ ">")).getD ""

/-- All consecutive `openTag … closeTag` blocks, fuelled by the buffer
length. -/
def extractAllBlocks : Nat → List Char → List Char → List Char → List String
  | 0, _, _, _ => []
  | fuel + 1, l, openTag, closeTag =>
    match dropAfterFirst l openTag with
    | none => []
    | some rest =>
      match takeBeforeFirst rest closeTag with
      | none => []
      | some body =>
        String.mk body ::
          extractAllBlocks fuel (rest.drop (body.length + closeTag.length))
            openTag closeTag

/-- Skip to just after the root element's opening `<` (passing over an
XML declaration). -/
def afterRootLt : List Char → Option (List Char)
  | [] => none
  | '<' :: '?' :: rest => afterRootLt rest
  | '<' :: rest => some rest
  | _ :: rest => afterRootLt rest

/-- Name of the root element, as checked by `xml.Unmarshal` against the
`XMLName` tag. -/
def rootElemName (s : String) : String :=
  match afterRootLt s.data with
  | some rest =>
    String.mk (rest.takeWhile (fun c =>
      c ≠ '>' && c ≠ ' ' && c ≠ '/' && c ≠ '\n' && c ≠ '\t' && c ≠ '\r'))
  | none => ""

/-- Integer element text (`xml:"…"` on an `int` field); the seeds only
carry well-formed numbers, so the decoder error path is not modelled. -/
def parseIntElem (s : String) : Int :=
  match s.data with
  | '-' :: rest => -(((readDigitRun rest).1).1 : Int)
  | l => (((readDigitRun l).1).1 : Int)

/-- Unmarshal a `tctParty` scope. -/
def tctUnmParty (s : String) : TctParty :=
  { name := extractTag s "Name", address := extractTag s "Address"
    taxID := extractTag s "TaxID", phoneNumber := extractTag s "PhoneNumber"
    email := extractTag s "Email", bankAccount := extractTag s "BankAccount"
    bankName := extractTag s "BankName" }

/-- Unmarshal a `tctItem` scope. -/
def tctUnmItem (s : String) : TctItem :=
  { itemNo := parseIntElem (extractTag s "ItemNo")
    itemCode := extractTag s "ItemCode", itemName := extractTag s "ItemName"
    description := extractTag s "Description"
    unitOfMeasure := extractTag s "UnitOfMeasure"
    quantity := extractTag s "Quantity", unitPrice := extractTag s "UnitPrice"
    discount := extractTag s "Discount", amount := extractTag s "Amount"
    taxRatePercent := parseIntElem (extractTag s "TaxRatePercent")
    taxAmount := extractTag s "TaxAmount", lineTotal := extractTag s "LineTotal" }

/-- Unmarshal a `tctSig` scope. -/
def tctUnmSig (s : String) : TctSig :=
  { signatureValue := extractTag s "SignatureValue"
    signatureDate := extractTag s "SignatureDate"
    signerName := extractTag s "SignerName"
    signerPosition := extractTag s "SignerPosition"
    certificateNo := extractTag s "CertificateNo" }

/-- Unmarshal the fields of one `tctInvoice` scope. -/
def tctUnmFields (s : String) : TctInvoice :=
  let itemsScope := (extractBetween s "<Items>" "</Items>").getD ""
  { invoiceNo := extractTag s "InvoiceNo"
    invoiceSeries := extractTag s "InvoiceSeries"
    invoiceDate := extractTag s "InvoiceDate"
    invoiceType := extractTag s "InvoiceType"
    currency := extractTag s "Currency"
    exchangeRate := extractTag s "ExchangeRate"
    seller := tctUnmParty ((extractBetween s "<Seller>" "</Seller>").getD "")
    buyer := tctUnmParty ((extractBetween s "<Buyer>" "</Buyer>").getD "")
    items := (extractAllBlocks itemsScope.length itemsScope.data
      "<Item>".data "</Item>".data).map tctUnmItem
    subtotalAmount := extractTag s "SubtotalAmount"
    taxAmount := extractTag s "TaxAmount"
    totalAmount := extractTag s "TotalAmount"
    paymentTerms := extractTag s "PaymentTerms"
    remarks := extractTag s "Remarks"
    signature := (extractBetween s "<Signature>" "</Signature>").map tctUnmSig }

/-- `xml.Unmarshal(content, &single)` for the `tctInvoice` target: the
root element must be `Invoice`. -/
def tctUnmarshalSingle (content : String) : Except String TctInvoice :=
  if rootElemName content = "Invoice" then .ok (tctUnmFields content)
  else .error ("expected element type <Invoice> but have <" ++
    rootElemName content ++ ">")

/-- `xml.Unmarshal(content, &multi)` for the `tctInvoices` target: the
root element must be `Invoices`; each `Invoice` block is unmarshalled in
turn. -/
def tctUnmarshalMulti (content : String) : Except String (List TctInvoice) :=
  if rootElemName content = "Invoices" then
    .ok ((extractAllBlocks content.length content.data
      "<Invoice>".data "</Invoice>".data).map tctUnmFields)
  else
    .error ("expected element type <Invoices> but have <" ++
      rootElemName content ++ ">")

/-- The literal TCT happy-path seed from the spec's scenario list. -/
def tctSeed : String :=
  "<Invoice><InvoiceNo>0000001</InvoiceNo><InvoiceSeries>KK23" ++
  "</InvoiceSeries><InvoiceDate>2026-01-15</InvoiceDate><Seller>" ++
  "<TaxID>0123456789</TaxID><Name>ABC Company</Name></Seller><Buyer>" ++
  "<TaxID>9876543210</TaxID><Name>XYZ Corp</Name></Buyer><TotalAmount>" ++
  "1100000</TotalAmount><TaxAmount>100000</TaxAmount></Invoice>"

/-! # Theorems -/

/-- Invariant 1 of the spec data model, as a statement about a result
record. -/
def validityInvariant (r : VerificationResult) : Prop :=
  r.valid = (r.signatureFound && r.signatureValid && r.certChainValid &&
             r.notRevoked && r.errors.isEmpty)

/-- Any result produced by `AddError` satisfies the invariant: `Valid` is
forced false and the error list is nonempty. -/
theorem validityInvariant_addError (r : VerificationResult) (m : String) :
    validityInvariant (addError r m) := by
  simp [validityInvariant, addError]

/-- Any result produced by `ComputeValidity` satisfies the invariant:
`Valid` is set to exactly that conjunction and no other field moves. -/
theorem validityInvariant_computeValidity (r : VerificationResult) :
    validityInvariant (computeValidity r) := rfl

/-- C1: every VerificationResult returned by the XML verifier's Verify or
the PDF verifier's Verify has its valid flag true exactly when
signature_found, signature_valid, cert_chain_valid and not_revoked are all
true and the errors list is empty.  Every return path ends in either
`AddError` (valid forced false with a nonempty error list) or
`ComputeValidity` (valid set to exactly this conjunction). -/
theorem xml_pdf_verify_validity :
    ∀ (envX : XmlEnv) (s : TrustStore) (now : Int) (envP : PdfEnv),
      validityInvariant (xmlVerify envX s now).1.1 ∧
      validityInvariant (pdfVerify envP).1 := by
  intro envX s now envP
  constructor
  · obtain ⟨ex, se, re, rf, ve, cd, de, pc, oc, st, sb⟩ := envX
    cases ex with
    | some e => exact validityInvariant_addError _ _
    | none =>
      cases se with
      | some e => exact validityInvariant_addError _ _
      | none =>
        cases re with
        | some e => exact validityInvariant_addError _ _
        | none =>
          cases rf with
          | false => exact validityInvariant_addError _ _
          | true => exact validityInvariant_computeValidity _
  · obtain ⟨av, tc, tw, rn, sderr, soe, po⟩ := envP
    cases av with
    | false => exact validityInvariant_addError _ _
    | true =>
      cases tc with
      | some e => exact validityInvariant_addError _ _
      | none =>
        cases tw with
        | some e => exact validityInvariant_addError _ _
        | none =>
          cases rn with
          | some e =>
            cases soe with
            | true => exact validityInvariant_addError _ _
            | false =>
              cases po with
              | error e2 => exact validityInvariant_addError _ _
              | ok output =>
                obtain ⟨count, sigs⟩ := output
                cases count with
                | zero => exact validityInvariant_addError _ _
                | succ n => exact validityInvariant_computeValidity _
          | none =>
            cases po with
            | error e2 => exact validityInvariant_addError _ _
            | ok output =>
              obtain ⟨count, sigs⟩ := output
              cases count with
              | zero => exact validityInvariant_addError _ _
              | succ n => exact validityInvariant_computeValidity _

/-- C5: `SetSigner` copies the certificate's validity window unchanged
(`valid_from = notBefore`, `valid_to = notAfter`) and renders the serial
number as its decimal string. -/
theorem setSigner_preserves_certificate_fields (r : VerificationResult) (c : Cert) :
    ((setSigner r (some c)).signer).map SignerInfo.validFrom = some c.notBefore ∧
    ((setSigner r (some c)).signer).map SignerInfo.validTo = some c.notAfter ∧
    ((setSigner r (some c)).signer).map SignerInfo.serialNumber =
      some (bigIntString c.serialNumber) :=
  ⟨rfl, rfl, rfl⟩

/-- The `AddCertificatesFromPEM` loop never touches the `rootCerts` slice,
the OCSP cache or the configuration, whatever the blocks are. -/
theorem addCertificatesFromPEMLoop_frame :
    ∀ (blocks : List PemBlock) (s : TrustStore) (added : Nat),
      (addCertificatesFromPEMLoop s added blocks).2.rootCerts = s.rootCerts ∧
      (addCertificatesFromPEMLoop s added blocks).2.ocspCache = s.ocspCache ∧
      (addCertificatesFromPEMLoop s added blocks).2.ocspTimeout = s.ocspTimeout ∧
      (addCertificatesFromPEMLoop s added blocks).2.softFail = s.softFail := by
  intro blocks
  induction blocks with
  | nil =>
    intro s added
    unfold addCertificatesFromPEMLoop
    split <;> exact ⟨rfl, rfl, rfl, rfl⟩
  | cons b rest ih =>
    intro s added
    unfold addCertificatesFromPEMLoop
    by_cases hb : b.blockType = "CERTIFICATE"
    · simp only [hb, if_true]
      cases hp : b.parsed with
      | error e => exact ⟨rfl, rfl, rfl, rfl⟩
      | ok c => exact ih _ _
    · simp only [hb, if_false]
      exact ih s added

/-- C3: `AddCertificatesFromPEM` leaves `RootCerts()` — the slice the XML
verifier hands to XMLDSig validation as trusted roots — unchanged (along
with the cache and soft-fail flag), while `AddCertificate` appends to both
the pool and the slice. -/
theorem addPEM_frames_rootCerts_addCertificate_updates_both :
    ∀ (s : TrustStore) (blocks : List PemBlock) (c : Cert),
      rootCertsOf (addCertificatesFromPEM s blocks).2 = rootCertsOf s ∧
      (addCertificatesFromPEM s blocks).2.ocspCache = s.ocspCache ∧
      (addCertificatesFromPEM s blocks).2.softFail = s.softFail ∧
      (addCertificate s (some c)).roots = s.roots ++ [c] ∧
      rootCertsOf (addCertificate s (some c)) = rootCertsOf s ++ [c] := by
  intro s blocks c
  obtain ⟨h1, h2, _, h4⟩ := addCertificatesFromPEMLoop_frame blocks s 0
  exact ⟨h1, h2, h4, rfl, rfl⟩

/-- Deleting a key from the cache map removes its binding. -/
theorem entriesLookup_erase_self :
    ∀ (l : List (String × OcspCacheEntry)) (k : String),
      entriesLookup (entriesErase l k) k = none := by
  intro l k
  induction l with
  | nil => rfl
  | cons p rest ih =>
    obtain ⟨pk, pe⟩ := p
    unfold entriesErase
    by_cases h : pk = k
    · simp only [h, if_true]
      exact ih
    · simp only [h, if_false]
      unfold entriesLookup
      simp only [h, if_false]
      exact ih

/-- C9: an `OCSPCache.Get` hit at wall time `t` only reports entries with
`t ≤ expires_at` (returning the stored value), and a lookup observing an
expired entry deletes it and reports a miss. -/
theorem ocspCacheGet_ttl (c : OCSPCache) (cert : Cert) (now : Int) :
    ((ocspCacheGet c (some cert) now).1.2 = true →
      ∃ e, entriesLookup c.entries (certCacheKey cert) = some e ∧
        now ≤ e.expiresAt ∧
        (ocspCacheGet c (some cert) now).1.1 = e.notRevoked) ∧
    (∀ e, entriesLookup c.entries (certCacheKey cert) = some e →
      now > e.expiresAt →
      (ocspCacheGet c (some cert) now).1.2 = false ∧
      entriesLookup (ocspCacheGet c (some cert) now).2.entries
        (certCacheKey cert) = none) := by
  cases hl : entriesLookup c.entries (certCacheKey cert) with
  | none =>
    constructor
    · intro h
      simp [ocspCacheGet, hl] at h
    · intro e he
      cases he
  | some e =>
    by_cases ht : now > e.expiresAt
    · constructor
      · intro h
        simp [ocspCacheGet, hl, ht] at h
      · intro e2 he2 ht2
        injection he2 with h3
        subst h3
        refine ⟨by simp [ocspCacheGet, hl, ht], ?_⟩
        simp only [ocspCacheGet, hl, if_pos ht]
        exact entriesLookup_erase_self _ _
    · constructor
      · intro _
        exact ⟨e, rfl, le_of_not_lt ht, by simp [ocspCacheGet, hl, ht]⟩
      · intro e2 he2 ht2
        injection he2 with h3
        subst h3
        exact absurd ht2 ht

/-- A concrete end-entity certificate carrying an OCSP responder URL. -/
def certW : Cert :=
  { subjectCommonName := "End Entity", subjectOrganization := []
    issuerCommonName := "Test Issuer", issuerOrganization := []
    issuerDN := "CN=Test Issuer", subjectDN := "CN=End Entity"
    serialNumber := 7, notBefore := 0, notAfter := 100000
    ocspServer := ["http://ocsp.example.com"] }

/-- A cache holding a fresh `not_revoked = true` entry expiring at tick
100. -/
def cacheW : OCSPCache :=
  { entries := [(certCacheKey certW, ⟨true, 100⟩)], ttl := 3600 }

/-- Witness for C9: on `cacheW`, a lookup at tick 50 hits an entry whose
expiry is in the future, and a lookup at tick 200 misses and evicts. -/
theorem ocspCacheGet_ttl_witness :
    (∃ e, entriesLookup cacheW.entries (certCacheKey certW) = some e ∧
      (50 : Int) ≤ e.expiresAt ∧
      (ocspCacheGet cacheW (some certW) 50).1.1 = e.notRevoked) ∧
    ((ocspCacheGet cacheW (some certW) 200).1.2 = false ∧
      entriesLookup (ocspCacheGet cacheW (some certW) 200).2.entries
        (certCacheKey certW) = none) :=
  ⟨(ocspCacheGet_ttl cacheW certW 50).1 (by decide),
   (ocspCacheGet_ttl cacheW certW 200).2 ⟨true, 100⟩ (by decide) (by decide)⟩

/-- The issuer of `certW`. -/
def issuerW : Cert :=
  { subjectCommonName := "Test Issuer", subjectOrganization := []
    issuerCommonName := "Test Root", issuerOrganization := []
    issuerDN := "CN=Test Root", subjectDN := "CN=Test Issuer"
    serialNumber := 3, notBefore := 0, notAfter := 100000
    ocspServer := [] }

/-- An empty trust store with the default 1 h cache TTL and 10 s OCSP
timeout. -/
def storeW : TrustStore := newEmptyTrustStore 3600 10

/-- C2: on a fresh store, a `CheckRevocation` whose live OCSP query reports
Good returns `not_revoked = true` and caches the outcome, but the second
call one tick later — a cache hit well inside the TTL — returns `false`:
the hit branch binds `OCSPCache.Get`'s `notRevoked` result as `revoked` and
negates it, contradicting `Get`'s own declaration and the cache tests. -/
theorem checkRevocation_cache_hit_negates :
    (checkRevocation storeW (some certW) (some issuerW) 1000 (.ok false)).value
      = true ∧
    (checkRevocation storeW (some certW) (some issuerW) 1000 (.ok false)).err
      = none ∧
    (checkRevocation
        (checkRevocation storeW (some certW) (some issuerW) 1000 (.ok false)).store
        (some certW) (some issuerW) 1001 (.ok false)).value = false ∧
    (checkRevocation
        (checkRevocation storeW (some certW) (some issuerW) 1000 (.ok false)).store
        (some certW) (some issuerW) 1001 (.ok false)).err = none :=
  ⟨rfl, rfl, rfl, rfl⟩

/-- Every chain produced by the x509 chain search starts at the leaf
certificate and ends at a certificate of the root pool. -/
theorem findChains_sound (signedBy : Cert → Cert → Bool) (roots inters : List Cert) :
    ∀ (fuel : Nat) (c : Cert) (chain : List Cert),
      chain ∈ findChains signedBy roots inters fuel c →
      chain.head? = some c ∧ ∃ r ∈ roots, chain.getLast? = some r := by
  intro fuel
  induction fuel with
  | zero =>
    intro c chain h
    unfold findChains at h
    by_cases hc : c ∈ roots
    · simp only [if_pos hc, List.mem_singleton] at h
      subst h
      exact ⟨rfl, c, hc, rfl⟩
    · simp [if_neg hc] at h
  | succ fuel ih =>
    intro c chain h
    unfold findChains at h
    rw [List.mem_append, List.mem_append] at h
    rcases h with (h | h) | h
    · by_cases hc : c ∈ roots
      · simp only [if_pos hc, List.mem_singleton] at h
        subst h
        exact ⟨rfl, c, hc, rfl⟩
      · simp [if_neg hc] at h
    · rw [List.mem_map] at h
      obtain ⟨r, hr, hchain⟩ := h
      subst hchain
      exact ⟨rfl, r, (List.mem_filter.mp hr).1, rfl⟩
    · rw [List.mem_flatten] at h
      obtain ⟨sub, hsub, hmem⟩ := h
      rw [List.mem_map] at hsub
      obtain ⟨i, hi, hsubeq⟩ := hsub
      subst hsubeq
      rw [List.mem_map] at hmem
      obtain ⟨tail, htail, hchain⟩ := hmem
      subst hchain
      obtain ⟨hhead, r, hr, hlast⟩ := ih i tail htail
      refine ⟨rfl, r, hr, ?_⟩
      cases tail with
      | nil => cases hhead
      | cons x xs => rw [List.getLast?_cons_cons]; exact hlast

/-- C4 (amended): a successful `VerifyChain` returns a chain with the input
certificate first and a trusted root of the store's pool last; when no
chain terminates at a trusted root it returns no chain and fails with the
generic wrapped error — a plain `fmt.Errorf` message, not the
`CHAIN_INVALID`-coded `SignatureError`. -/
theorem verifyChain_shape_and_failure :
    ∀ (signedBy : Cert → Cert → Bool) (s : TrustStore) (c : Cert)
      (inters chain : List Cert),
      (verifyChain signedBy s (some c) inters = .ok chain →
        chain.head? = some c ∧ ∃ r ∈ s.roots, chain.getLast? = some r) ∧
      (findChains signedBy s.roots inters (inters.length + 1) c = [] →
        verifyChain signedBy s (some c) inters =
          .error (.msg ("chain verification failed: " ++
            "x509: certificate signed by unknown authority")) ∧
        ∀ e, verifyChain signedBy s (some c) inters = .error e →
          e.isChainInvalidCode = false) := by
  intro signedBy s c inters chain
  cases hf : findChains signedBy s.roots inters (inters.length + 1) c with
  | nil =>
    constructor
    · intro h
      simp [verifyChain, x509Verify, hf] at h
    · intro _
      constructor
      · simp [verifyChain, x509Verify, hf]
      · intro e he
        simp [verifyChain, x509Verify, hf] at he
        subst he
        rfl
  | cons ch rest =>
    constructor
    · intro h
      simp only [verifyChain, x509Verify, hf] at h
      injection h with h
      subst h
      exact findChains_sound signedBy s.roots inters _ c ch
        (hf ▸ List.mem_cons_self ch rest)
    · intro h0
      cases h0

/-- A self-signed root that is not in `storeW` (scenario 6 of the spec). -/
def rootW : Cert :=
  { subjectCommonName := "Untrusted Root", subjectOrganization := []
    issuerCommonName := "Untrusted Root", issuerOrganization := []
    issuerDN := "CN=Untrusted Root", subjectDN := "CN=Untrusted Root"
    serialNumber := 1, notBefore := 0, notAfter := 100000
    ocspServer := [] }

/-- Concrete signing relation: `rootW` signs `certW`. -/
def signedByW : Cert → Cert → Bool :=
  fun a b => decide (a = certW) && decide (b = rootW)

/-- Counterexample for C4 as stated: on the empty store no chain reaches a
trusted root and `VerifyChain` fails, but the error is the wrapped x509
message, not a `ChainInvalid`-coded `SignatureError`. -/
theorem verifyChain_counterexample_not_chainInvalid :
    verifyChain (fun _ _ => false) storeW (some certW) [] =
      .error (.msg ("chain verification failed: " ++
        "x509: certificate signed by unknown authority")) ∧
    (GoErr.msg ("chain verification failed: " ++
      "x509: certificate signed by unknown authority")).isChainInvalidCode
        = false :=
  ⟨rfl, rfl⟩

/-- Witness for C4 (amended): adding `rootW` to the store makes
`VerifyChain` return the two-element chain leaf-first, root-last. -/
theorem verifyChain_shape_witness :
    ([certW, rootW].head? = some certW ∧
      ∃ r ∈ (addCertificate storeW (some rootW)).roots,
        [certW, rootW].getLast? = some r) :=
  (verifyChain_shape_and_failure signedByW (addCertificate storeW (some rootW))
    certW [] [certW, rootW]).1 rfl

/-- A `Verify` call environment in which the pdfsig tool was not found at
construction time. -/
def pdfEnvUnavailable : PdfEnv :=
  { available := false, tmpCreateErr := none, tmpWriteErr := none
    runErr := none, stderrText := "", stdoutEmpty := false
    parseOutcome := .error "no output" }

/-- Counterexample for C6 as stated: with the tool unavailable,
`PDFVerifier.Verify` returns an invalid result and the `ToolUnavailable`
error, but its warnings list is empty — no install-instructions warning is
attached on this path. -/
theorem pdfVerify_unavailable_no_install_warning :
    (pdfVerify pdfEnvUnavailable).1.warnings = [] ∧
    (pdfVerify pdfEnvUnavailable).2 = some (errToolUnavailable "pdfsig") ∧
    (pdfVerify pdfEnvUnavailable).1.valid = false :=
  ⟨rfl, rfl, rfl⟩

/-- C6 (amended): whenever the tool is unavailable, `Verify` returns a
not-valid result whose only error is "pdfsig tool not available" together
with the `ToolUnavailable` Go error and no warnings; the platform-specific
install-instructions warning is produced by `CreateUnavailableResult`, a
separate constructor, not by `Verify`. -/
theorem pdfVerify_unavailable_behavior :
    ∀ env : PdfEnv, env.available = false →
      (pdfVerify env).1.valid = false ∧
      (pdfVerify env).1.errors = ["pdfsig tool not available"] ∧
      (pdfVerify env).2 = some (errToolUnavailable "pdfsig") ∧
      (pdfVerify env).1.warnings = [] ∧
      createUnavailableResult.warnings = [getInstallInstructions] := by
  intro env h
  obtain ⟨av, tc, tw, rn, sderr, soe, po⟩ := env
  subst h
  exact ⟨rfl, rfl, rfl, rfl, rfl⟩

/-- Witness for C6 (amended) at the concrete unavailable environment. -/
theorem pdfVerify_unavailable_behavior_witness :
    (pdfVerify pdfEnvUnavailable).1.valid = false ∧
    (pdfVerify pdfEnvUnavailable).1.errors = ["pdfsig tool not available"] ∧
    (pdfVerify pdfEnvUnavailable).2 = some (errToolUnavailable "pdfsig") ∧
    (pdfVerify pdfEnvUnavailable).1.warnings = [] ∧
    createUnavailableResult.warnings = [getInstallInstructions] :=
  pdfVerify_unavailable_behavior pdfEnvUnavailable rfl

/-- Counterexample for C7 as stated: "rEplacement" is a casing of
"replacement" (its ASCII lower-casing is exactly that word) yet the
adapters map it to Normal, not Replacement. -/
theorem parseInvoiceType_mixed_casing_counterexample :
    parseInvoiceType "rEplacement" = .normal ∧
    asciiLower "rEplacement" = "replacement" :=
  ⟨rfl, by decide⟩

/-- C7 (amended): invoice-type strings are matched against exactly three
casings per keyword — Title, lower and UPPER — with every other string
(including mixed casings) mapping to Normal. -/
theorem parseInvoiceType_exact_casings (s : String) :
    (parseInvoiceType s = .replacement ↔
      (s = "Replacement" ∨ s = "replacement" ∨ s = "REPLACEMENT")) ∧
    (parseInvoiceType s = .adjustment ↔
      (s = "Adjustment" ∨ s = "adjustment" ∨ s = "ADJUSTMENT")) := by
  by_cases hR : s = "Replacement" ∨ s = "replacement" ∨ s = "REPLACEMENT"
  · have hval : parseInvoiceType s = .replacement := by
      unfold parseInvoiceType
      rw [if_pos hR]
    refine ⟨⟨fun _ => hR, fun _ => hval⟩, ⟨fun hx => ?_, fun hx => ?_⟩⟩
    · rw [hval] at hx
      cases hx
    · rcases hx with h | h | h <;> subst h <;>
        rcases hR with h2 | h2 | h2 <;> exact absurd h2 (by decide)
  · by_cases hA : s = "Adjustment" ∨ s = "adjustment" ∨ s = "ADJUSTMENT"
    · have hval : parseInvoiceType s = .adjustment := by
        unfold parseInvoiceType
        rw [if_neg hR, if_pos hA]
      refine ⟨⟨fun hx => ?_, fun hx => absurd hx hR⟩, ⟨fun _ => hA, fun _ => hval⟩⟩
      rw [hval] at hx
      cases hx
    · have hval : parseInvoiceType s = .normal := by
        unfold parseInvoiceType
        rw [if_neg hR, if_neg hA]
      refine ⟨⟨fun hx => ?_, fun hx => absurd hx hR⟩,
              ⟨fun hx => ?_, fun hx => absurd hx hA⟩⟩ <;>
        · rw [hval] at hx
          cases hx

/-- The TCT converter stores the raw buffer unchanged in `RawXML`. -/
theorem convertTctInvoice_rawXML :
    ∀ (inv : TctInvoice) (content : String) (i : Invoice),
      convertTctInvoice inv content = .ok i → i.rawXML = content := by
  intro inv content i h
  unfold convertTctInvoice at h
  cases hit : convertTctItems inv.items with
  | error e =>
    rw [hit] at h
    cases h
  | ok items =>
    rw [hit] at h
    injection h with h
    subst h
    repeat' split
    all_goals rfl

/-- The VNPT converter stores the raw buffer unchanged in `RawXML`. -/
theorem convertVnptInvoice_rawXML :
    ∀ (inv : VnptInvoice) (content : String) (i : Invoice),
      convertVnptInvoice inv content = .ok i → i.rawXML = content := by
  intro inv content i h
  unfold convertVnptInvoice at h
  injection h with h
  subst h
  repeat' split
  all_goals rfl

/-- The MISA converter stores the raw buffer unchanged in `RawXML`. -/
theorem convertMisaInvoice_rawXML :
    ∀ (inv : MisaInvoice) (content : String) (i : Invoice),
      convertMisaInvoice inv content = .ok i → i.rawXML = content := by
  intro inv content i h
  unfold convertMisaInvoice at h
  injection h with h
  subst h
  repeat' split
  all_goals rfl

/-- The FPT converter stores the raw buffer unchanged in `RawXML`. -/
theorem convertFptInvoice_rawXML :
    ∀ (inv : FptInvoice) (content : String) (i : Invoice),
      convertFptInvoice inv content = .ok i → i.rawXML = content := by
  intro inv content i h
  unfold convertFptInvoice at h
  injection h with h
  subst h
  repeat' split
  all_goals rfl

/-- The Viettel converter stores the raw buffer unchanged in `RawXML`. -/
theorem convertViettelInvoice_rawXML :
    ∀ (inv : ViettelInvoice) (content : String) (i : Invoice),
      convertViettelInvoice inv content = .ok i → i.rawXML = content := by
  intro inv content i h
  unfold convertViettelInvoice at h
  injection h with h
  subst h
  repeat' split
  all_goals rfl

/-- C8: for every buffer successfully parsed by any of the five provider
adapters (under any unmarshal outcome), the resulting unified invoice's
`raw_xml` equals the input buffer byte-for-byte. -/
theorem adapters_preserve_rawXML :
    ∀ (unmT1 : String → Except String TctInvoice)
      (unmT2 : String → Except String (List TctInvoice))
      (unmV : String → Except String VnptInvoice)
      (unmM : String → Except String MisaInvoice)
      (unmF : String → Except String FptInvoice)
      (unmVt : String → Except String ViettelInvoice)
      (content : String) (inv : Invoice),
      (tctParse unmT1 unmT2 content = .ok inv → inv.rawXML = content) ∧
      (vnptParse unmV content = .ok inv → inv.rawXML = content) ∧
      (misaParse unmM content = .ok inv → inv.rawXML = content) ∧
      (fptParse unmF content = .ok inv → inv.rawXML = content) ∧
      (viettelParse unmVt content = .ok inv → inv.rawXML = content) := by
  intro unmT1 unmT2 unmV unmM unmF unmVt content inv
  refine ⟨?_, ?_, ?_, ?_, ?_⟩
  · intro h
    have hmulti : tctParseMulti unmT2 content = .ok inv → inv.rawXML = content := by
      intro hm
      unfold tctParseMulti at hm
      split at hm
      · cases hm
      · cases hm
      · exact convertTctInvoice_rawXML _ content inv hm
    unfold tctParse at h
    split at h
    · split at h
      · exact convertTctInvoice_rawXML _ content inv h
      · exact hmulti h
    · exact hmulti h
  · intro h
    unfold vnptParse at h
    split at h
    · cases h
    · exact convertVnptInvoice_rawXML _ content inv h
  · intro h
    unfold misaParse at h
    split at h
    · cases h
    · exact convertMisaInvoice_rawXML _ content inv h
  · intro h
    unfold fptParse at h
    split at h
    · cases h
    · exact convertFptInvoice_rawXML _ content inv h
  · intro h
    unfold viettelParse at h
    split at h
    · cases h
    · exact convertViettelInvoice_rawXML _ content inv h

/-- Witness for C8: each adapter applied to the buffer "abc" under a
trivially succeeding unmarshal outcome keeps `RawXML = "abc"`. -/
theorem adapters_preserve_rawXML_witness :
    ((tctParse (fun _ => .ok { invoiceNo := "X" }) (fun _ => .error "e")
        "abc").toOption.getD {}).rawXML = "abc" ∧
    ((vnptParse (fun _ => .ok {}) "abc").toOption.getD {}).rawXML = "abc" ∧
    ((misaParse (fun _ => .ok {}) "abc").toOption.getD {}).rawXML = "abc" ∧
    ((fptParse (fun _ => .ok {}) "abc").toOption.getD {}).rawXML = "abc" ∧
    ((viettelParse (fun _ => .ok {}) "abc").toOption.getD {}).rawXML = "abc" := by
  refine ⟨?_, ?_, ?_, ?_, ?_⟩
  · exact (adapters_preserve_rawXML (fun _ => .ok { invoiceNo := "X" })
      (fun _ => .error "e") (fun _ => .ok {}) (fun _ => .ok {}) (fun _ => .ok {})
      (fun _ => .ok {}) "abc" _).1 rfl
  · exact (adapters_preserve_rawXML (fun _ => .ok { invoiceNo := "X" })
      (fun _ => .error "e") (fun _ => .ok {}) (fun _ => .ok {}) (fun _ => .ok {})
      (fun _ => .ok {}) "abc" _).2.1 rfl
  · exact (adapters_preserve_rawXML (fun _ => .ok { invoiceNo := "X" })
      (fun _ => .error "e") (fun _ => .ok {}) (fun _ => .ok {}) (fun _ => .ok {})
      (fun _ => .ok {}) "abc" _).2.2.1 rfl
  · exact (adapters_preserve_rawXML (fun _ => .ok { invoiceNo := "X" })
      (fun _ => .error "e") (fun _ => .ok {}) (fun _ => .ok {}) (fun _ => .ok {})
      (fun _ => .ok {}) "abc" _).2.2.2.1 rfl
  · exact (adapters_preserve_rawXML (fun _ => .ok { invoiceNo := "X" })
      (fun _ => .error "e") (fun _ => .ok {}) (fun _ => .ok {}) (fun _ => .ok {})
      (fun _ => .ok {}) "abc" _).2.2.2.2 rfl

/-- The unified invoice obtained from the TCT seed. -/
def tctSeedInvoice : Invoice :=
  { number := "0000001", series := "KK23"
    date := { year := 2026, month := 1, day := 15 }
    itype := .normal, provider := .tct, currency := "", exchangeRate := 0
    seller := { name := "ABC Company", taxID := "0123456789" }
    buyer := { name := "XYZ Corp", taxID := "9876543210" }
    items := [], subtotalAmount := 0, taxAmount := 100000
    totalAmount := 1100000, signature := none, remarks := ""
    paymentTerms := "", rawXML := tctSeed }

set_option maxRecDepth 20000 in
/-- Parsing the seed through the TCT adapter (with the flat-document
unmarshal oracle) yields exactly `tctSeedInvoice`, by computation. -/
theorem tctSeedParse_eq :
    tctParse tctUnmarshalSingle tctUnmarshalMulti tctSeed = .ok tctSeedInvoice := by
  rfl

set_option maxRecDepth 20000 in
/-- C10: on the literal TCT seed the registry dispatches to the TCT
adapter, and the parsed invoice has number "0000001", series "KK23", date
2026-01-15 00:00:00 UTC, seller tax id "0123456789" and total amount
1100000. -/
theorem tct_seed_dispatch_and_fields :
    registryDetect tctSeed = some Provider.tct ∧
    (tctParse tctUnmarshalSingle tctUnmarshalMulti tctSeed).toOption.map
      Invoice.number = some "0000001" ∧
    (tctParse tctUnmarshalSingle tctUnmarshalMulti tctSeed).toOption.map
      Invoice.series = some "KK23" ∧
    (tctParse tctUnmarshalSingle tctUnmarshalMulti tctSeed).toOption.map
      Invoice.date = some { year := 2026, month := 1, day := 15 } ∧
    (tctParse tctUnmarshalSingle tctUnmarshalMulti tctSeed).toOption.map
      (fun i => i.seller.taxID) = some "0123456789" ∧
    (tctParse tctUnmarshalSingle tctUnmarshalMulti tctSeed).toOption.map
      Invoice.totalAmount = some (1100000 : ℚ) := by
  refine ⟨by decide, ?_, ?_, ?_, ?_, ?_⟩ <;> rw [tctSeedParse_eq] <;> rfl

/-- Witness for C7 (amended) at the concrete casings "REPLACEMENT" and
"rEplacement". -/
theorem parseInvoiceType_exact_casings_witness :
    parseInvoiceType "REPLACEMENT" = .replacement ∧
    parseInvoiceType "rEplacement" ≠ .replacement :=
  ⟨(parseInvoiceType_exact_casings "REPLACEMENT").1.mpr
      (Or.inr (Or.inr rfl)),
   fun h =>
    match (parseInvoiceType_exact_casings "rEplacement").1.mp h with
    | Or.inl h2 => absurd h2 (by decide)
    | Or.inr (Or.inl h2) => absurd h2 (by decide)
    | Or.inr (Or.inr h2) => absurd h2 (by decide)⟩

end InvoiceProcessor
